import Mathlib

/-!
# Verification of `PCInfoCollector` (burstCode/PCInfoCollector)

A shallow embedding of `src/info_collector.py` and `src/main.py`, with
theorems settling the specification claims about the five collectors,
the orchestrator and the HTML renderer.

Conventions of the embedding:
* OS / `psutil` / subprocess observations are inputs, packaged in a `Host`
  record; each Python collector becomes a pure Lean function of `Host`.
* Python byte counts are `Nat`; percentages sampled by `psutil` are `Rat`
  (the exact rational value of the IEEE-754 double the library returns;
  any byte count below `2 ^ 53` is itself exactly representable).
* `round(x, 2)` on a Python float performs correct rounding of the
  represented value to two decimals, ties to even; `rhe2` models it.
* A `subprocess.check_output` call is an `Option String` input: `none`
  models a `CalledProcessError` (non-zero exit status), `some s` the
  captured stdout.
* Python code that raises an uncaught exception is modelled with `Option`
  results (`none` = the exception propagates).
-/

namespace PCInfo

/-! ## String utilities (Python `str` operations used by the source) -/

/-- Python's `sub in s` (substring containment) on character lists. -/
def infixAt : List Char → List Char → Bool
  | [], pat => pat.isEmpty
  | c :: rest, pat => pat.isPrefixOf (c :: rest) || infixAt rest pat

/-- Python's `sub in s` on strings. -/
def pyIn (pat s : String) : Bool := infixAt s.toList pat.toList

/-- Python `str.lower`, for the ASCII alphabet (all markers that the
source matches are ASCII). -/
def pyLower (s : String) : String := String.mk (s.toList.map Char.toLower)

/-- Python `str.strip` (drop leading and trailing whitespace). -/
def pyStrip (s : String) : String :=
  String.mk (((s.toList.dropWhile Char.isWhitespace).reverse.dropWhile
    Char.isWhitespace).reverse)

/-! ## Numeric utilities: Python `round(x, 2)` and string formatting -/

/-- Round a rational to the nearest integer, ties to even — the rounding
Python's `round` applies to the exact value of a float argument. -/
def rhe (q : ℚ) : ℤ :=
  if q - ⌊q⌋ < 1 / 2 then ⌊q⌋
  else if (1 : ℚ) / 2 < q - ⌊q⌋ then ⌊q⌋ + 1
  else if ⌊q⌋ % 2 = 0 then ⌊q⌋ else ⌊q⌋ + 1

/-- Python `round(q, 2)`: round to two decimal places, ties to even. -/
def round2 (q : ℚ) : ℚ := (rhe (q * 100) : ℚ) / 100

theorem rhe_intCast (n : ℤ) : rhe (n : ℚ) = n := by
  simp [rhe]

theorem rhe_mono {a b : ℚ} (h : a ≤ b) : rhe a ≤ rhe b := by
  rcases lt_or_eq_of_le (Int.floor_le_floor h) with hf | hf
  · have h1 : rhe a ≤ ⌊a⌋ + 1 := by
      unfold rhe; split_ifs <;> omega
    have h2 : ⌊b⌋ ≤ rhe b := by
      unfold rhe; split_ifs <;> omega
    omega
  · -- same floor: compare the fractional parts
    have hfr : a - (⌊a⌋ : ℚ) ≤ b - (⌊a⌋ : ℚ) := by linarith
    unfold rhe
    rw [← hf]
    split_ifs <;> first | omega | linarith

theorem round2_mono {a b : ℚ} (h : a ≤ b) : round2 a ≤ round2 b := by
  unfold round2
  gcongr
  · exact rhe_mono (by nlinarith)

theorem round2_le_of_le_100 {q : ℚ} (h : q ≤ 100) : round2 q ≤ 100 := by
  have h1 : round2 q ≤ round2 100 := round2_mono h
  have h2 : round2 100 = 100 := by
    unfold round2
    have : ((100 : ℚ) * 100) = ((10000 : ℤ) : ℚ) := by norm_num
    rw [this, rhe_intCast]
    norm_num
  rw [h2] at h1
  exact h1

/-- Two-digit zero-padded rendering of `n < 100`. -/
def pad2 (n : ℕ) : String :=
  if n < 10 then "0" ++ toString n else toString n

/-- Decimal rendering of the non-negative rational `c / 100` with trailing
zeros removed but at least one fractional digit kept — the shape Python's
`str` gives a float whose value is an exact two-decimal fraction. -/
def centiRepr (c : ℤ) : String :=
  let n := c.toNat
  let ip := n / 100
  let fr := n % 100
  if fr = 0 then toString ip ++ ".0"
  else if fr % 10 = 0 then toString ip ++ "." ++ toString (fr / 10)
  else toString ip ++ "." ++ (if fr < 10 then "0" ++ toString fr else toString fr)

/-- `f"{round(b / (1024 ** 3), 2)} GB"` for a byte quantity `b : ℚ`
(the exact value of the float the code divides). -/
def gbStringQ (b : ℚ) : String :=
  centiRepr (rhe (b / 1024 ^ 3 * 100)) ++ " GB"

/-- The same conversion applied to an integer byte count (the values
`psutil` actually reports; exact in a float below `2 ^ 53`). -/
def gbString (b : ℕ) : String := gbStringQ (b : ℚ)

/-- Python `f"{q:.2f}"` for a non-negative rational: two decimals, always
both shown (used for the CPU frequency in MHz). -/
def fmt2f (q : ℚ) : String :=
  let c := (rhe (q * 100)).toNat
  toString (c / 100) ++ "." ++ pad2 (c % 100)

/-- `str()` of a Python float whose value is the exact short decimal `q`
(at most 17 fractional digits): the shortest round-tripping decimal, with
at least one fractional digit. All float values interpolated by the
renderer in the claims are of this form. -/
def decRepr (q : ℚ) : String :=
  let sign := if q < 0 then "-" else ""
  let a := |q|
  let k := (((List.range 18).filter fun k => (a * 10 ^ k).den = 1).head?).getD 17
  let n := (a * 10 ^ k).num.toNat
  let ip := n / 10 ^ k
  let fr := n % 10 ^ k
  let digits := toString fr
  let padded := String.mk (List.replicate (k - digits.length) '0') ++ digits
  sign ++ toString ip ++ "." ++ (if k = 0 then "0" else padded)

/-- `str()` of a Python `timedelta` of `s` seconds (non-negative):
`[D day(s), ]H:MM:SS`. -/
def tdRepr (s : ℤ) : String :=
  let n := s.toNat
  let d := n / 86400
  let h := n % 86400 / 3600
  let m := n % 3600 / 60
  let sec := n % 60
  (if d = 0 then "" else
    toString d ++ (if d = 1 then " day, " else " days, ")) ++
  toString h ++ ":" ++ pad2 m ++ ":" ++ pad2 sec

/-! ## The host: every observation the collectors make of the machine -/

/-- One row of `psutil.disk_partitions` together with the
`psutil.disk_usage(mountpoint).free` byte count the code reads for it. -/
structure RawDisk where
  device : String
  mountpoint : String
  fstype : String
  free : ℕ
  deriving Repr, DecidableEq

/-- One process of the process table as the second
`psutil.process_iter(['pid', 'name', 'cpu_percent'])` /
`process_iter(['pid', 'name', 'memory_percent'])` passes observe it:
pid, name, and the two sampled percentages. -/
structure RawProc where
  pid : ℕ
  name : String
  cpu : ℚ
  mem : ℚ
  deriving Repr, DecidableEq

/-- All inputs of one program run.  `Option String` fields stand for
`subprocess.check_output` results (`none` = `CalledProcessError`);
`euid` is `none` on platforms where `os.geteuid` does not exist. -/
structure Host where
  date_time : String
  pc_name : String
  user_name : String
  euid : Option ℤ
  os : String
  kernel : String
  now_ts : ℤ
  boot_ts : ℤ
  xdg : Option String
  shellEnv : Option String
  xrandrRes : Option String
  cpu_name : String
  freq : Option ℚ
  cores : ℕ
  threads : ℕ
  vm_total : ℕ
  vm_used : ℕ
  sw_total : ℕ
  sw_used : ℕ
  disks : List RawDisk
  lspciRes : Option String
  journalRes : Option (List String)
  procs : List RawProc

/-! ## `collect_top_processes` (src/info_collector.py:81-124) -/

/-- An element of the `info["cpu"]` list. -/
structure CpuEntry where
  pid : ℕ
  name : String
  cpu : ℚ
  deriving Repr, DecidableEq

/-- An element of the `info["memory"]` list. -/
structure MemEntry where
  pid : ℕ
  name : String
  memory : ℚ
  deriving Repr, DecidableEq

/-- The `processes` record. -/
structure ProcInfo where
  cpu : List CpuEntry
  memory : List MemEntry
  deriving Repr, DecidableEq

/-- `sorted(..., key=lambda p: p.info.get('cpu_percent', 0), reverse=True)`:
a stable descending sort, i.e. a stable sort under the total Boolean
relation "left key not below right key". -/
def cpuRanking (procs : List RawProc) : List RawProc :=
  procs.mergeSort fun a b => b.cpu ≤ a.cpu

/-- `sorted(..., key=lambda p: p.info.get('memory_percent', 0), reverse=True)`. -/
def memRanking (procs : List RawProc) : List RawProc :=
  procs.mergeSort fun a b => b.mem ≤ a.mem

/-- `collect_top_processes`, as a function of the logical thread count
(`psutil.cpu_count(logical=True)`) and the observed process table.
`[1:6]` is `drop 1` then `take 5`; `[:5]` is `take 5`.  (Python would
raise `ZeroDivisionError` were the thread count 0; `psutil` reports at
least 1, and the theorems below carry `0 < threads`.) -/
def collect_top_processes (threads : ℕ) (procs : List RawProc) : ProcInfo where
  cpu := ((cpuRanking procs).drop 1).take 5 |>.map fun p =>
    { pid := p.pid, name := p.name, cpu := p.cpu / threads }
  memory := (memRanking procs).take 5 |>.map fun p =>
    { pid := p.pid, name := p.name, memory := round2 p.mem }

theorem cpuRanking_perm (procs : List RawProc) :
    List.Perm (cpuRanking procs) procs :=
  List.mergeSort_perm procs _

theorem memRanking_perm (procs : List RawProc) :
    List.Perm (memRanking procs) procs :=
  List.mergeSort_perm procs _

theorem cpuRanking_sorted (procs : List RawProc) :
    (cpuRanking procs).Pairwise fun a b => b.cpu ≤ a.cpu := by
  have h := @List.sorted_mergeSort RawProc
    (fun a b : RawProc => b.cpu ≤ a.cpu)
    (fun a b c hab hbc => by
      simp only [decide_eq_true_eq] at *; exact le_trans hbc hab)
    (fun a b => by simpa using le_total b.cpu a.cpu) procs
  exact h.imp fun hx => by simpa using hx

theorem memRanking_sorted (procs : List RawProc) :
    (memRanking procs).Pairwise fun a b => b.mem ≤ a.mem := by
  have h := @List.sorted_mergeSort RawProc
    (fun a b : RawProc => b.mem ≤ a.mem)
    (fun a b c hab hbc => by
      simp only [decide_eq_true_eq] at *; exact le_trans hbc hab)
    (fun a b => by simpa using le_total b.mem a.mem) procs
  exact h.imp fun hx => by simpa using hx

/-! ### C10 -/

/-- C10: for every raw process table with `n` entries the CPU list of
`collect_top_processes` has exactly `min (n - 1) 5` entries (so it is
empty whenever `n ≤ 1`): the `[1:6]` slice always removes one element
before taking at most five. -/
theorem cpu_list_length (threads : ℕ) (procs : List RawProc) :
    (collect_top_processes threads procs).cpu.length = min (procs.length - 1) 5 ∧
    (procs.length ≤ 1 → (collect_top_processes threads procs).cpu = []) := by
  constructor
  · simp [collect_top_processes, cpuRanking, Nat.min_comm]
  · intro h
    have hlen : (collect_top_processes threads procs).cpu.length = 0 := by
      simp [collect_top_processes, cpuRanking]
      omega
    exact List.length_eq_zero.mp hlen

/-- Witness for C10: a single-process table yields an empty CPU list. -/
theorem cpu_list_length_witness :
    (collect_top_processes 4 [⟨1, "init", 50, 1⟩]).cpu.length = min (1 - 1) 5 ∧
    (collect_top_processes 4 [⟨1, "init", 50, 1⟩]).cpu = [] := by
  have h := cpu_list_length 4 [⟨1, "init", 50, 1⟩]
  exact ⟨h.1, h.2 (by decide)⟩

/-! ### C1 -/

/-- C1: the CPU list has length at most 5; when the table is non-empty the
raw descending ranking starts with an entry of maximal CPU percent, which
is exactly the one excluded (the list consists of positions 2 through 6 of
the ranking); and every reported entry carries a raw table entry's pid and
name with its cpu percent divided by the logical thread count. -/
theorem cpu_ranking_spec (threads : ℕ) (procs : List RawProc)
    (_ht : 0 < threads) :
    (collect_top_processes threads procs).cpu.length ≤ 5 ∧
    (procs ≠ [] → ∃ top rest, cpuRanking procs = top :: rest ∧
      (∀ p ∈ procs, p.cpu ≤ top.cpu) ∧
      (collect_top_processes threads procs).cpu =
        (rest.take 5).map fun p => ⟨p.pid, p.name, p.cpu / threads⟩) ∧
    (∀ e ∈ (collect_top_processes threads procs).cpu,
      ∃ p ∈ procs, e.pid = p.pid ∧ e.name = p.name ∧ e.cpu = p.cpu / threads) := by
  refine ⟨?_, ?_, ?_⟩
  · simp [collect_top_processes]
  · intro hne
    cases hr : cpuRanking procs with
    | nil =>
      exfalso
      have hlen : (cpuRanking procs).length = procs.length := by
        simp [cpuRanking]
      rw [hr] at hlen
      exact hne (List.length_eq_zero.mp hlen.symm)
    | cons top rest =>
      refine ⟨top, rest, rfl, ?_, ?_⟩
      · intro p hp
        have hmem : p ∈ cpuRanking procs := (cpuRanking_perm procs).mem_iff.mpr hp
        rw [hr] at hmem
        have hpw := cpuRanking_sorted procs
        rw [hr] at hpw
        rcases List.mem_cons.mp hmem with rfl | hmem
        · exact le_refl _
        · exact (List.pairwise_cons.mp hpw).1 p hmem
      · simp [collect_top_processes, hr]
  · intro e he
    simp only [collect_top_processes] at he
    rcases List.mem_map.mp he with ⟨p, hp, rfl⟩
    have hp1 : p ∈ cpuRanking procs :=
      List.drop_subset 1 _ (List.take_subset 5 _ hp)
    exact ⟨p, (cpuRanking_perm procs).mem_iff.mp hp1, rfl, rfl, rfl⟩

/-- Witness for C1 on a three-process table with two logical threads. -/
theorem cpu_ranking_spec_witness :
    0 < 2 ∧ ([⟨1, "a", 10, 1⟩, ⟨2, "b", 30, 2⟩, ⟨3, "c", 20, 3⟩] : List RawProc) ≠ [] ∧
    (∃ top rest,
      cpuRanking [⟨1, "a", 10, 1⟩, ⟨2, "b", 30, 2⟩, ⟨3, "c", 20, 3⟩] = top :: rest ∧
      (∀ p ∈ ([⟨1, "a", 10, 1⟩, ⟨2, "b", 30, 2⟩, ⟨3, "c", 20, 3⟩] : List RawProc),
        p.cpu ≤ top.cpu) ∧
      (collect_top_processes 2 [⟨1, "a", 10, 1⟩, ⟨2, "b", 30, 2⟩, ⟨3, "c", 20, 3⟩]).cpu =
        (rest.take 5).map fun p => ⟨p.pid, p.name, p.cpu / 2⟩) :=
  ⟨by decide, by decide,
    (cpu_ranking_spec 2 [⟨1, "a", 10, 1⟩, ⟨2, "b", 30, 2⟩, ⟨3, "c", 20, 3⟩]
      (by decide)).2.1 (by decide)⟩

/-! ### C4 -/

/-- Counterexample for C4 as stated: the code never clamps memory
percentages, so a raw table whose single process reports 150 percent
memory produces a `memory` list whose entry exceeds 100. -/
theorem mem_ranking_no_clamp :
    (collect_top_processes 4 [⟨1, "x", 0, 150⟩]).memory = [⟨1, "x", 150⟩] ∧
    ¬ ((150 : ℚ) ≤ 100) := by
  have h150 : round2 150 = 150 := by
    unfold round2
    have h : ((150 : ℚ) * 100) = ((15000 : ℤ) : ℚ) := by norm_num
    rw [h, rhe_intCast]
    norm_num
  exact ⟨by simp [collect_top_processes, memRanking, h150], by norm_num⟩

/-- C4 as amended: the memory list has length at most 5, is sorted
non-increasing by memory percent, and each reported value is a raw
entry's memory percent rounded to two decimals; the 100-percent bound
holds whenever every raw memory percent is at most 100 (the code performs
no clamping of its own). -/
theorem mem_ranking_spec (threads : ℕ) (procs : List RawProc) :
    (collect_top_processes threads procs).memory.length ≤ 5 ∧
    (collect_top_processes threads procs).memory.Pairwise
      (fun a b => b.memory ≤ a.memory) ∧
    (∀ e ∈ (collect_top_processes threads procs).memory,
      ∃ p ∈ procs, e.pid = p.pid ∧ e.name = p.name ∧ e.memory = round2 p.mem) ∧
    ((∀ p ∈ procs, p.mem ≤ 100) →
      ∀ e ∈ (collect_top_processes threads procs).memory, e.memory ≤ 100) := by
  refine ⟨?_, ?_, ?_, ?_⟩
  · simp [collect_top_processes]
  · have hpw := (memRanking_sorted procs).sublist (List.take_sublist 5 _)
    simp only [collect_top_processes]
    exact (List.pairwise_map).mpr (hpw.imp fun hx => round2_mono hx)
  · intro e he
    simp only [collect_top_processes] at he
    rcases List.mem_map.mp he with ⟨p, hp, rfl⟩
    have hp1 : p ∈ memRanking procs := List.take_subset 5 _ hp
    exact ⟨p, (memRanking_perm procs).mem_iff.mp hp1, rfl, rfl, rfl⟩
  · intro hall e he
    simp only [collect_top_processes] at he
    rcases List.mem_map.mp he with ⟨p, hp, rfl⟩
    have hp1 : p ∈ memRanking procs := List.take_subset 5 _ hp
    exact round2_le_of_le_100 (hall p ((memRanking_perm procs).mem_iff.mp hp1))

/-- Witness for C4 (amended): a bounded table keeps the bound. -/
theorem mem_ranking_spec_witness :
    (∀ p ∈ ([⟨1, "a", 0, 30⟩, ⟨2, "b", 0, 99⟩] : List RawProc),
      p.mem ≤ 100) ∧
    (∀ e ∈ (collect_top_processes 4
        [⟨1, "a", 0, 30⟩, ⟨2, "b", 0, 99⟩]).memory,
      e.memory ≤ 100) :=
  ⟨by intro p hp; fin_cases hp <;> norm_num,
    (mem_ranking_spec 4 [⟨1, "a", 0, 30⟩, ⟨2, "b", 0, 99⟩]).2.2.2
      (by intro p hp; fin_cases hp <;> norm_num)⟩

/-! ## `analyze_logs` (src/info_collector.py:126-140) -/

/-- The `logs` record. -/
structure LogInfo where
  success : ℕ
  warnings : ℕ
  errors : ℕ
  deriving Repr, DecidableEq

/-- `analyze_logs`, as a function of the `journalctl` invocation result
(`none` = `CalledProcessError`, `some lines` = the split output lines).
Note the source checks `"systemd" in log.lower()` but `"Started" in log`:
only the first membership test is performed on the lowercased line. -/
def analyze_logs (journal : Option (List String)) : LogInfo :=
  match journal with
  | none => { success := 0, warnings := 0, errors := 0 }
  | some lines =>
    { success := lines.countP fun l =>
        pyIn "systemd" (pyLower l) && pyIn "Started" l
      warnings := lines.countP fun l => pyIn "warning" (pyLower l)
      errors := lines.countP fun l => pyIn "error" (pyLower l) }

/-- Correctness of the executable substring test. -/
theorem infixAt_iff (s pat : List Char) :
    infixAt s pat = true ↔ pat <:+: s := by
  induction s with
  | nil =>
    simp [infixAt, List.isEmpty_iff]
  | cons c rest ih =>
    simp only [infixAt, Bool.or_eq_true, List.isPrefixOf_iff_prefix, ih]
    exact (List.infix_cons_iff).symm

theorem pyIn_eq_decide (pat s : String) :
    pyIn pat s = decide (pat.toList <:+: s.toList) := by
  rw [Bool.eq_iff_iff]
  simp [pyIn, infixAt_iff]

/-! ### C3 -/

/-- C3: a non-zero exit of the log-reading utility yields the record with
all three counts zero instead of an exception. -/
theorem analyze_logs_failure :
    analyze_logs none = { success := 0, warnings := 0, errors := 0 } := rfl

/-! ### C2 -/

/-- Modelled from the claim's words, for comparison with the code: fully
case-insensitive classification of a success line ("contains 'systemd'
and a 'Started' marker, case-insensitive substring matching"). -/
def claimSuccessCount (lines : List String) : ℕ :=
  lines.countP fun l =>
    pyIn "systemd" (pyLower l) && pyIn "started" (pyLower l)

/-- Counterexample for C2 as stated: the `"Started"` membership test runs
on the original line, so it is case-sensitive.  A line with a lowercase
`started` is counted by the claim's fully case-insensitive reading but
not by the code. -/
theorem analyze_logs_started_case :
    (analyze_logs (some ["systemd[1]: started Session 1."])).success = 0 ∧
    claimSuccessCount ["systemd[1]: started Session 1."] = 1 := by
  exact ⟨rfl, rfl⟩

/-- C2 as amended: each line is classified by three independent substring
tests — `systemd` (case-insensitive) together with `Started`
(case-sensitive, matched against the original line) for the success
count, `warning` (case-insensitive) for the warning count and `error`
(case-insensitive) for the error count — and one line may count toward
several buckets, as the final concrete conjunct shows. -/
theorem analyze_logs_classification (lines : List String) :
    (analyze_logs (some lines)).success =
      (lines.countP fun l => decide ("systemd".toList <:+: (pyLower l).toList ∧
        "Started".toList <:+: l.toList)) ∧
    (analyze_logs (some lines)).warnings =
      (lines.countP fun l => decide ("warning".toList <:+: (pyLower l).toList)) ∧
    (analyze_logs (some lines)).errors =
      (lines.countP fun l => decide ("error".toList <:+: (pyLower l).toList)) ∧
    analyze_logs (some ["ERROR: systemd Started with a warning"]) =
      { success := 1, warnings := 1, errors := 1 } := by
  refine ⟨?_, ?_, ?_, rfl⟩
  · have hp : (fun l => pyIn "systemd" (pyLower l) && pyIn "Started" l) =
        fun l => decide ("systemd".toList <:+: (pyLower l).toList ∧
          "Started".toList <:+: l.toList) := by
      funext l
      rw [pyIn_eq_decide, pyIn_eq_decide, Bool.eq_iff_iff]
      simp
    simp only [analyze_logs, hp]
  · have hp : (fun l => pyIn "warning" (pyLower l)) =
        fun l => decide ("warning".toList <:+: (pyLower l).toList) := by
      funext l
      rw [pyIn_eq_decide]
    simp only [analyze_logs, hp]
  · have hp : (fun l => pyIn "error" (pyLower l)) =
        fun l => decide ("error".toList <:+: (pyLower l).toList) := by
      funext l
      rw [pyIn_eq_decide]
    simp only [analyze_logs, hp]

/-! ## `collect_general_info` (src/info_collector.py:9-21) -/

/-- The `general` record. `uptime` is kept as a signed number of seconds
(the `timedelta` value `now - boot`). -/
structure GeneralInfo where
  date_time : String
  pc_name : String
  user_name : String
  «sudo» : String
  os : String
  kernel : String
  uptime : ℤ
  deriving Repr, DecidableEq

/-- `collect_general_info`.  `os.geteuid` does not exist on platforms
without effective user ids; there the attribute access raises and the
collector fails (`none`). -/
def collect_general_info (h : Host) : Option GeneralInfo :=
  h.euid.map fun e : ℤ =>
    { date_time := h.date_time
      pc_name := h.pc_name
      user_name := h.user_name
      «sudo» := if e = 0 then "Yes" else "No"
      os := h.os
      kernel := h.kernel
      uptime := h.now_ts - h.boot_ts }

/-! ## `collect_environment_info` (src/info_collector.py:23-40) -/

/-- The `environment` record. -/
structure EnvInfo where
  desktop_env : String
  resolution : String
  shell : String
  deriving Repr, DecidableEq

/-- `collect_environment_info`: `os.environ.get(..., "Unknown")` for the
desktop and shell fields; for the resolution, the stripped output of the
`xrandr | grep | awk` pipeline, `"Unknown"` on a `CalledProcessError` or
empty stripped output. -/
def collect_environment_info (h : Host) : EnvInfo :=
  { desktop_env := h.xdg.getD "Unknown"
    resolution :=
      match h.xrandrRes with
      | none => "Unknown"
      | some out => if pyStrip out = "" then "Unknown" else pyStrip out
    shell := h.shellEnv.getD "Unknown" }

/-- Split a string into its newline-separated lines, as the shell's line
processing (`grep`, `awk`) sees them. -/
def splitNlAux : List Char → List Char → List String
  | [], acc => [String.mk acc.reverse]
  | c :: rest, acc =>
    if c = '\n' then String.mk acc.reverse :: splitNlAux rest []
    else splitNlAux rest (c :: acc)

/-- All newline-separated pieces of `s`. -/
def splitNl (s : String) : List String := splitNlAux s.toList []

/-- `awk` field `$1` of a line: the first maximal run of non-whitespace
characters (empty for a blank line). -/
def firstField (l : String) : String :=
  String.mk ((l.toList.dropWhile Char.isWhitespace).takeWhile
    fun c => !c.isWhitespace)

/-- The external pipeline `xrandr | grep ASTERISK | awk` of line 33 of the
source: keep the raw `xrandr` lines containing `*` and print the first
field of each, one per output line.  Its captured stdout has one trailing
newline per printed line. -/
def xrandrPipeline (raw : String) : String :=
  ((splitNl raw).filter fun l => pyIn "*" l).foldr
    (fun l acc => firstField l ++ "\n" ++ acc) ""

theorem dropWhile_all_false {p : Char → Bool} :
    ∀ l : List Char, (∀ c ∈ l, p c = false) → l.dropWhile p = l
  | [], _ => rfl
  | c :: cs, h => by
    rw [List.dropWhile_cons]
    simp [h c (List.mem_cons_self c cs)]

/-- Stripping a whitespace-free token followed by one newline recovers
the token. -/
theorem pyStrip_token_newline (t : String)
    (h : ∀ c ∈ t.toList, c.isWhitespace = false) :
    pyStrip (t ++ "\n" ++ "") = t := by
  cases t with
  | mk l =>
    show pyStrip (String.mk (l ++ ['\n'] ++ [])) = String.mk l
    rw [List.append_nil]
    unfold pyStrip
    show String.mk ((((l ++ ['\n']).dropWhile Char.isWhitespace).reverse.dropWhile
      Char.isWhitespace).reverse) = String.mk l
    cases l with
    | nil => rfl
    | cons c cs =>
      have hc : c.isWhitespace = false := h c (List.mem_cons_self c cs)
      have hall : ∀ x ∈ (List.reverse cs ++ [c]), x.isWhitespace = false := by
        intro x hx
        rcases List.mem_append.mp hx with hx | hx
        · exact h x (List.mem_cons_of_mem c (List.mem_reverse.mp hx))
        · rcases List.mem_singleton.mp hx with rfl
          exact hc
      have hnl : ('\n').isWhitespace = true := by decide
      have h1 : (c :: (cs ++ ['\n'])).dropWhile Char.isWhitespace
          = c :: (cs ++ ['\n']) := by
        rw [List.dropWhile_cons]
        simp [hc]
      have h2 : (c :: (cs ++ ['\n'])).reverse = '\n' :: (cs.reverse ++ [c]) := by
        simp
      rw [List.cons_append, h1, h2, List.dropWhile_cons]
      simp only [hnl, if_true]
      rw [dropWhile_all_false _ hall]
      simp

/-- The first field of a line is whitespace-free. -/
theorem firstField_no_ws (l : String) :
    ∀ c ∈ (firstField l).toList, c.isWhitespace = false := by
  intro c hc
  have := List.mem_takeWhile_imp (l := l.toList.dropWhile Char.isWhitespace)
    (p := fun c => !c.isWhitespace) hc
  simpa using this

/-! ### C6 -/

/-- C6: the resolution field is `"Unknown"` whenever the display-listing
pipeline raises (non-zero exit) or its stripped output is empty; when the
pipeline runs on raw `xrandr` output with exactly one active-mode line
(the one containing `*`) whose first field is non-empty, the field equals
that first field. -/
theorem resolution_spec (h : Host) :
    (h.xrandrRes = none → (collect_environment_info h).resolution = "Unknown") ∧
    (∀ s, h.xrandrRes = some s → pyStrip s = "" →
      (collect_environment_info h).resolution = "Unknown") ∧
    (∀ raw l, h.xrandrRes = some (xrandrPipeline raw) →
      ((splitNl raw).filter fun x => pyIn "*" x) = [l] →
      firstField l ≠ "" →
      (collect_environment_info h).resolution = firstField l) := by
  refine ⟨?_, ?_, ?_⟩
  · intro hx
    simp [collect_environment_info, hx]
  · intro s hx hs
    simp [collect_environment_info, hx, hs]
  · intro raw l hx hone hne
    have hpipe : xrandrPipeline raw = firstField l ++ "\n" ++ "" := by
      unfold xrandrPipeline
      rw [hone]
      rfl
    have hstrip : pyStrip (xrandrPipeline raw) = firstField l := by
      rw [hpipe]
      exact pyStrip_token_newline _ (firstField_no_ws l)
    simp [collect_environment_info, hx, hstrip, hne]

/-- A demonstration host: every external probe succeeds, one display. -/
def demoHost : Host where
  date_time := "2024-05-01 10:00:00"
  pc_name := "demo-pc"
  user_name := "alice"
  euid := some 1000
  os := "Linux"
  kernel := "6.8.0"
  now_ts := 1714550400
  boot_ts := 1714546800
  xdg := some "GNOME"
  shellEnv := some "/bin/bash"
  xrandrRes := some (xrandrPipeline "Screen 0: minimum 320 x 200\n   1920x1080     60.00*+  59.94\n   1280x1024     75.02")
  cpu_name := "x86_64"
  freq := some 3600
  cores := 4
  threads := 8
  vm_total := 8 * 1024 ^ 3
  vm_used := 2 * 1024 ^ 3
  sw_total := 2 * 1024 ^ 3
  sw_used := 0
  disks := [⟨"/dev/sda1", "/", "ext4", 2 * 1024 ^ 3⟩]
  lspciRes := some "00:02.0 VGA compatible controller: Intel HD Graphics\n"
  journalRes := some ["-- systemd[1]: Started Session 1.", "kernel: error x"]
  procs := [⟨1, "systemd", 1, 1⟩, ⟨2, "firefox", 40, 12⟩, ⟨3, "lean", 30, 9⟩]

/-- Witness for C6: the single-active-line case yields the first field. -/
theorem resolution_spec_witness :
    ((splitNl "Screen 0: minimum 320 x 200\n   1920x1080     60.00*+  59.94\n   1280x1024     75.02").filter
      fun x => pyIn "*" x) = ["   1920x1080     60.00*+  59.94"] ∧
    firstField "   1920x1080     60.00*+  59.94" ≠ "" ∧
    (collect_environment_info demoHost).resolution =
      firstField "   1920x1080     60.00*+  59.94" ∧
    firstField "   1920x1080     60.00*+  59.94" = "1920x1080" :=
  ⟨rfl, by decide,
    (resolution_spec demoHost).2.2
      "Screen 0: minimum 320 x 200\n   1920x1080     60.00*+  59.94\n   1280x1024     75.02"
      "   1920x1080     60.00*+  59.94" rfl rfl (by decide),
    rfl⟩

/-! ### C8 -/

/-- A host on a platform without an effective-user-id concept. -/
def demoHostNoEuid : Host := { demoHost with euid := none }

/-- Counterexample for C8 as stated: on a platform without an effective
user id the claim demands a record with a false privilege field, but the
collector raises (no record is produced). -/
theorem general_info_no_euid : collect_general_info demoHostNoEuid = none := rfl

/-- C8 as amended: the privilege field is the string `"Yes"` iff the
effective user id is 0 and `"No"` otherwise — not a boolean — and on a
platform without an effective user id `collect_general_info` fails
instead of reporting an unprivileged record. -/
theorem general_info_privilege (h : Host) :
    (h.euid = none → collect_general_info h = none) ∧
    (∀ e : ℤ, h.euid = some e →
      ∃ g, collect_general_info h = some g ∧
        (g.«sudo» = "Yes" ↔ e = 0) ∧ (e ≠ 0 → g.«sudo» = "No")) := by
  constructor
  · intro he
    simp [collect_general_info, he]
  · intro e he
    unfold collect_general_info
    rw [he]
    refine ⟨_, rfl, ?_, ?_⟩
    · show (if e = 0 then "Yes" else "No") = "Yes" ↔ e = 0
      constructor
      · intro hs
        by_contra hne
        rw [if_neg hne] at hs
        exact absurd hs (by decide)
      · intro hz
        rw [if_pos hz]
    · intro hne
      show (if e = 0 then "Yes" else "No") = "No"
      rw [if_neg hne]

/-- Witness for C8 (amended) at a host whose effective user id is 0. -/
theorem general_info_privilege_witness :
    ({ demoHost with euid := some 0 } : Host).euid = some 0 ∧
    ∃ g, collect_general_info { demoHost with euid := some 0 } = some g ∧
      (g.«sudo» = "Yes" ↔ (0 : ℤ) = 0) ∧ ((0 : ℤ) ≠ 0 → g.«sudo» = "No") :=
  ⟨rfl, (general_info_privilege { demoHost with euid := some 0 }).2 0 rfl⟩

/-! ## `collect_hardware_info` (src/info_collector.py:42-79) -/

/-- The `hardware.cpu` sub-record. -/
structure CpuHw where
  name : String
  frequency : String
  cores : ℕ
  threads : ℕ
  deriving Repr, DecidableEq

/-- The `hardware.ram` sub-record (formatted strings, per the source). -/
structure RamInfo where
  total : String
  used : String
  swap_total : String
  swap_used : String
  deriving Repr, DecidableEq

/-- One element of the `hardware.disks` list. -/
structure DiskInfo where
  device : String
  mountpoint : String
  fstype : String
  free_space : String
  deriving Repr, DecidableEq

/-- The `hardware` record. -/
structure HwInfo where
  cpu : CpuHw
  ram : RamInfo
  disks : List DiskInfo
  gpu : String
  deriving Repr, DecidableEq

/-- `collect_hardware_info`.  `freq = none` models `psutil.cpu_freq()`
returning `None`; the GPU pipeline result is an `Option String` like the
other `check_output` calls (`grep -i vga` exits non-zero when no line
matches, which lands in the `except` branch). -/
def collect_hardware_info (h : Host) : HwInfo :=
  { cpu :=
      { name := h.cpu_name
        frequency :=
          match h.freq with
          | some f => fmt2f f ++ " MHz"
          | none => "Unknown"
        cores := h.cores
        threads := h.threads }
    ram :=
      { total := gbString h.vm_total
        used := gbString h.vm_used
        swap_total := gbString h.sw_total
        swap_used := gbString h.sw_used }
    disks := h.disks.map fun d =>
      { device := d.device
        mountpoint := d.mountpoint
        fstype := d.fstype
        free_space := gbString d.free }
    gpu :=
      match h.lspciRes with
      | none => "None"
      | some out => if pyStrip out = "" then "None" else pyStrip out }

/-! ### C7 -/

/-- C7: every gigabyte figure of the hardware record is the byte count
divided by `1024 ^ 3`, rounded to two decimals and suffixed `" GB"`
(`gbString`); `2 * 1024 ^ 3` free bytes render as `"2.0 GB"`; and a byte
quantity of `2.345 * 1024 ^ 3` — in the code a float, whose exact value
is `5280470563091907 * 2 ^ 30 / 2 ^ 51` — renders as `"2.35 GB"`. -/
theorem gb_conversion (h : Host) :
    (collect_hardware_info h).ram.total = gbString h.vm_total ∧
    (collect_hardware_info h).ram.used = gbString h.vm_used ∧
    (collect_hardware_info h).ram.swap_total = gbString h.sw_total ∧
    (collect_hardware_info h).ram.swap_used = gbString h.sw_used ∧
    ((collect_hardware_info h).disks.map fun d => d.free_space) =
      h.disks.map (fun d => gbString d.free) ∧
    gbString (2 * 1024 ^ 3) = "2.0 GB" ∧
    gbStringQ ((5280470563091907 : ℚ) * 2 ^ 30 / 2 ^ 51) = "2.35 GB" := by
  refine ⟨rfl, rfl, rfl, rfl, by simp [collect_hardware_info], ?_, ?_⟩
  · unfold gbString gbStringQ
    have hq : ((2 * 1024 ^ 3 : ℕ) : ℚ) / 1024 ^ 3 * 100 = ((200 : ℤ) : ℚ) := by
      norm_num
    rw [hq, rhe_intCast]
    rfl
  · unfold gbStringQ
    have hq : (5280470563091907 : ℚ) * 2 ^ 30 / 2 ^ 51 / 1024 ^ 3 * 100 =
        (5280470563091907 : ℚ) * 100 / 2 ^ 51 := by
      ring
    rw [hq]
    have hfl : ⌊(5280470563091907 : ℚ) * 100 / 2 ^ 51⌋ = 234 := by
      rw [Int.floor_eq_iff]
      norm_num
    have hrhe : rhe ((5280470563091907 : ℚ) * 100 / 2 ^ 51) = 235 := by
      unfold rhe
      rw [hfl]
      rw [if_neg (by norm_num), if_pos (by norm_num)]
      norm_num
    rw [hrhe]
    rfl

/-! ## The orchestrator `main` (src/main.py:3-22) -/

/-- The value stored under one top-level key of the aggregate document. -/
inductive FieldVal where
  | general (g : GeneralInfo)
  | environment (e : EnvInfo)
  | hardware (hw : HwInfo)
  | processes (p : ProcInfo)
  | logs (l : LogInfo)
  deriving Repr, DecidableEq

/-- The aggregate dictionary `all_data` built by `main`, as the ordered
key/value list of its construction; `none` when a collector raises (the
only modelled raising path is `os.geteuid` being absent). -/
def main_document (h : Host) : Option (List (String × FieldVal)) :=
  (collect_general_info h).map fun g =>
    [("general", FieldVal.general g),
     ("environment", FieldVal.environment (collect_environment_info h)),
     ("hardware", FieldVal.hardware (collect_hardware_info h)),
     ("processes", FieldVal.processes (collect_top_processes h.threads h.procs)),
     ("logs", FieldVal.logs (analyze_logs h.journalRes))]

/-! ### C5 -/

/-- C5: whenever `main` completes, the aggregate document carries exactly
the five top-level keys, in all cases — and the three external-utility
failure modes degrade in place to their sentinels (`"Unknown"` for the
resolution, `"None"` for the GPU, zero counts for the logs) instead of
dropping a field. -/
theorem document_fields (h : Host) (doc : List (String × FieldVal))
    (hd : main_document h = some doc) :
    doc.map Prod.fst = ["general", "environment", "hardware", "processes", "logs"] ∧
    (h.xrandrRes = none →
      ("environment", FieldVal.environment
        { desktop_env := h.xdg.getD "Unknown"
          resolution := "Unknown"
          shell := h.shellEnv.getD "Unknown" }) ∈ doc) ∧
    (h.lspciRes = none → ∃ hw : HwInfo,
      ("hardware", FieldVal.hardware hw) ∈ doc ∧ hw.gpu = "None") ∧
    (h.journalRes = none →
      ("logs", FieldVal.logs { success := 0, warnings := 0, errors := 0 }) ∈ doc) := by
  rcases Option.map_eq_some'.mp hd with ⟨g, _, rfl⟩
  refine ⟨rfl, ?_, ?_, ?_⟩
  · intro hx
    have henv : collect_environment_info h =
        { desktop_env := h.xdg.getD "Unknown"
          resolution := "Unknown"
          shell := h.shellEnv.getD "Unknown" } := by
      simp [collect_environment_info, hx]
    rw [← henv]
    simp
  · intro hl
    refine ⟨collect_hardware_info h, by simp, ?_⟩
    simp [collect_hardware_info, hl]
  · intro hj
    have hlog : analyze_logs h.journalRes =
        { success := 0, warnings := 0, errors := 0 } := by
      rw [hj]
      rfl
    rw [← hlog]
    simp

/-- A host on which all three external utilities fail. -/
def demoHostFail : Host :=
  { demoHost with xrandrRes := none, lspciRes := none, journalRes := none }

/-- Witness for C5: on the all-utilities-failing host the document still
carries the five keys and the sentinel values. -/
theorem document_fields_witness :
    ∃ doc, main_document demoHostFail = some doc ∧
      doc.map Prod.fst =
        ["general", "environment", "hardware", "processes", "logs"] ∧
      ("logs", FieldVal.logs { success := 0, warnings := 0, errors := 0 }) ∈ doc := by
  obtain ⟨doc, hdoc⟩ : ∃ doc, main_document demoHostFail = some doc := ⟨_, rfl⟩
  have h := document_fields demoHostFail doc hdoc
  exact ⟨doc, hdoc, h.1, h.2.2.2 rfl⟩

/-! ## `generate_html_report` (src/info_collector.py:142-231) -/

/-- The aggregate document handed to the renderer (the `all_data` dict). -/
structure AllData where
  general : GeneralInfo
  environment : EnvInfo
  hardware : HwInfo
  processes : ProcInfo
  logs : LogInfo
  deriving Repr, DecidableEq

/-- One rendered disk table row. -/
def diskRowHtml (d : DiskInfo) : String :=
  "<tr><td>" ++ d.device ++ "</td><td>" ++ d.mountpoint ++ "</td><td>" ++
    d.fstype ++ "</td><td>" ++ d.free_space ++ "</td></tr>"

/-- One rendered top-CPU table row (`str` of the pid and of the float
percentage). -/
def cpuRowHtml (p : CpuEntry) : String :=
  "<tr><td>" ++ toString p.pid ++ "</td><td>" ++ p.name ++ "</td><td>" ++
    decRepr p.cpu ++ "%</td></tr>"

/-- One rendered top-memory table row. -/
def memRowHtml (p : MemEntry) : String :=
  "<tr><td>" ++ toString p.pid ++ "</td><td>" ++ p.name ++ "</td><td>" ++
    decRepr p.memory ++ "%</td></tr>"

/-- Python's `"".join` over a list of fragments. -/
def concatAll : List String → String
  | [] => ""
  | s :: ss => s ++ concatAll ss

/-- Join lines with a newline between consecutive lines (and no trailing
newline) — the newline structure of the source's template string. -/
def joinNl : List String → String
  | [] => ""
  | [l] => l
  | l :: l2 :: ls => l ++ "\n" ++ joinNl (l2 :: ls)

/-- The lines of the f-string template of lines 159-229 of the source,
transcribed one source line per list entry (the doubled braces of the
`style` block are the escaped literal braces of a Python f-string). -/
def reportLines (data : AllData) : List String :=
  let disks_html := concatAll (data.hardware.disks.map diskRowHtml)
  let top_cpu_html := concatAll (data.processes.cpu.map cpuRowHtml)
  let top_memory_html := concatAll (data.processes.memory.map memRowHtml)
  [ ""
    , "    <!DOCTYPE html>"
    , "    <html lang=\"en\">"
    , "    <head>"
    , "        <meta charset=\"UTF-8\">"
    , "        <meta name=\"viewport\" content=\"width=device-width, initial-scale=1.0\">"
    , "        <title>Системный отчет</title>"
    , "        <style>"
    , "            body \x7b font-family: Arial, sans-serif; \x7d"
    , "            h1, h2 \x7b color: #333; \x7d"
    , "            table \x7b width: 100%; border-collapse: collapse; \x7d"
    , "            th, td \x7b border: 1px solid #ccc; padding: 8px; text-align: left; \x7d"
    , "            th \x7b background-color: #f4f4f4; \x7d"
    , "        </style>"
    , "    </head>"
    , "    <body>"
    , "        <h1>Отчет о системе</h1>"
    , "        <h2>Общая информация</h2>"
    , "        <table>"
    , "            <tr><th>Свойство</th><th>Значение</th></tr>"
    , "            <tr><td>Дата и время</td><td>" ++ data.general.date_time ++ "</td></tr>"
    , "            <tr><td>Наименование компьютера</td><td>" ++ data.general.pc_name ++ "</td></tr>"
    , "            <tr><td>Имя пользователя</td><td>" ++ data.general.user_name ++ " (sudo: " ++ data.general.«sudo» ++ ")</td></tr>"
    , "            <tr><td>Операционная система</td><td>" ++ data.general.os ++ "</td></tr>"
    , "            <tr><td>Ядро</td><td>" ++ data.general.kernel ++ "</td></tr>"
    , "            <tr><td>Время работы</td><td>" ++ tdRepr data.general.uptime ++ "</td></tr>"
    , "        </table>"
    , ""
    , "        <h2>Информация об окружении</h2>"
    , "        <table>"
    , "            <tr><th>Свойство</th><th>Значение</th></tr>"
    , "            <tr><td>Графическая оболочка</td><td>" ++ data.environment.desktop_env ++ "</td></tr>"
    , "            <tr><td>Разрешение экрана</td><td>" ++ data.environment.resolution ++ "</td></tr>"
    , "            <tr><td>Оболочка</td><td>" ++ data.environment.shell ++ "</td></tr>"
    , "        </table>"
    , ""
    , "        <h2>Информация об аппаратном обеспечении</h2>"
    , "        <table>"
    , "            <tr><th>Компонент</th><th>Значение</th></tr>"
    , "            <tr><td>Процессор</td><td>" ++ data.hardware.cpu.name ++ " (" ++ data.hardware.cpu.frequency ++ "), " ++ toString data.hardware.cpu.cores ++ " ядра(-ер) / " ++ toString data.hardware.cpu.threads ++ " потока(-ов)</td></tr>"
    , "            <tr><td>Оперативная память</td><td>Всего: " ++ data.hardware.ram.total ++ ", Использовано: " ++ data.hardware.ram.used ++ ", Swap: " ++ data.hardware.ram.swap_total ++ " (Использовано: " ++ data.hardware.ram.swap_used ++ ")</td></tr>"
    , "            <tr><td>Видеокарта</td><td>" ++ data.hardware.gpu ++ "</td></tr>"
    , "        </table>"
    , "        <h3>Информация о диске</h3>"
    , "        <table>"
    , "            <tr><th>Устройство</th><th>Точка монтирования</th><th>Файловая система</th><th>Свободное пространство</th></tr>"
    , "            " ++ disks_html
    , "        </table>"
    , ""
    , "        <h2>Наиболее ресурсоемкие процессы</h2>"
    , "        <h3>По использованию процессора</h3>"
    , "        <table>"
    , "            <tr><th>Идентификатор процесса (PID)</th><th>Наименование</th><th>Использование процессора (%)</th></tr>"
    , "            " ++ top_cpu_html
    , "        </table>"
    , "        <h3>По использованию оперативной памяти</h3>"
    , "        <table>"
    , "            <tr><th>Идентификатор процесса (PID)</th><th>Наименование</th><th>Использование памяти (%)</th></tr>"
    , "            " ++ top_memory_html
    , "        </table>"
    , ""
    , "        <h2>Анализ логов</h2>"
    , "        <table>"
    , "            <tr><th>Категория</th><th>Количество</th></tr>"
    , "            <tr><td>Успехи</td><td>" ++ toString data.logs.success ++ "</td></tr>"
    , "            <tr><td>Предупреждения</td><td>" ++ toString data.logs.warnings ++ "</td></tr>"
    , "            <tr><td>Ошибки</td><td>" ++ toString data.logs.errors ++ "</td></tr>"
    , "        </table>"
    , "    </body>"
    , "    </html>"
    , "    " ]

/-- `generate_html_report`: the template lines joined by newlines. -/
def generate_html_report (data : AllData) : String :=
  joinNl (reportLines data)

/-! ## A well-formedness checker for the rendered markup -/

/-- State of the tag scanner: whether we are inside `<...>`, the reversed
characters collected for the current tag, the stack of open tag names,
and whether any mismatch occurred. -/
structure ScanSt where
  inTag : Bool
  acc : List Char
  stack : List (List Char)
  ok : Bool
  deriving Repr, DecidableEq

/-- The element name of a tag: its characters up to the first space. -/
def tagNameOf (content : List Char) : List Char :=
  content.takeWhile fun c => !(c = ' ' || c = '\t' || c = '\n')

/-- Pop a closing tag against the stack. -/
def closeTag (st : ScanSt) (name : List Char) : ScanSt :=
  match st.stack with
  | [] => { st with ok := false }
  | top :: rest =>
    if top == name then { st with stack := rest } else { st with ok := false }

/-- Process one complete tag body.  `<!...>` declarations are ignored and
`meta` is an HTML void element that takes no closing tag. -/
def applyTag (st : ScanSt) (content : List Char) : ScanSt :=
  match content with
  | [] => { st with ok := false }
  | c :: rest =>
    if c = '!' then st
    else if c = '/' then closeTag st (tagNameOf rest)
    else
      let name := tagNameOf content
      if name == "meta".toList then st
      else { st with stack := name :: st.stack }

/-- One scanner step. -/
def scanStep (st : ScanSt) (c : Char) : ScanSt :=
  if st.inTag then
    if c = '>' then applyTag { st with inTag := false, acc := [] } st.acc.reverse
    else { st with acc := c :: st.acc }
  else if c = '<' then { st with inTag := true, acc := [] }
  else st

/-- Every opened tag of `s` is closed, in nesting order. -/
def htmlBalanced (s : String) : Bool :=
  let fin := s.toList.foldl scanStep ⟨false, [], [], true⟩
  fin.ok && !fin.inTag && fin.stack.isEmpty

/-! ### Linewise decomposition lemmas for the renderer proofs -/

theorem toList_append (a b : String) : (a ++ b).toList = a.toList ++ b.toList := by
  cases a
  cases b
  rfl

/-- Scan one line of text. -/
def scanLine (st : ScanSt) (l : String) : ScanSt := l.toList.foldl scanStep st

/-- Scan a list of lines joined by newlines (no trailing newline). -/
def scanLines (st : ScanSt) : List String → ScanSt
  | [] => st
  | [l] => scanLine st l
  | l :: l2 :: ls => scanLines (scanStep (scanLine st l) '\n') (l2 :: ls)

/-- Scan a list of lines, each followed by a newline. -/
def scanLinesNl (st : ScanSt) : List String → ScanSt
  | [] => st
  | l :: ls => scanLinesNl (scanStep (scanLine st l) '\n') ls

theorem scanLines_cons₂ (st : ScanSt) (a b : String) (ls : List String) :
    scanLines st (a :: b :: ls) = scanLines (scanStep (scanLine st a) '\n') (b :: ls) :=
  rfl

theorem scanLines_append :
    ∀ (A : List String) (b : String) (B : List String) (st : ScanSt),
      scanLines st (A ++ b :: B) = scanLines (scanLinesNl st A) (b :: B)
  | [], _, _, _ => rfl
  | a :: A', b, B, st => by
    cases A' with
    | nil => rfl
    | cons a2 A'' =>
      show scanLines st (a :: ((a2 :: A'') ++ b :: B)) = _
      rw [show (a2 :: A'') ++ b :: B = a2 :: (A'' ++ b :: B) from rfl,
        scanLines_cons₂]
      exact scanLines_append (a2 :: A'') b B (scanStep (scanLine st a) '\n')

/-- Scanning the joined document is scanning the lines with a newline
step between consecutive lines. -/
theorem scanLines_eq :
    ∀ (ls : List String) (st : ScanSt),
      (joinNl ls).toList.foldl scanStep st = scanLines st ls
  | [], _ => rfl
  | [_], _ => rfl
  | l :: l2 :: ls, st => by
    show (l ++ "\n" ++ joinNl (l2 :: ls)).toList.foldl scanStep st = _
    rw [toList_append, toList_append, List.foldl_append, List.foldl_append]
    have := scanLines_eq (l2 :: ls) (scanStep (l.toList.foldl scanStep st) '\n')
    rw [scanLines_cons₂]
    exact this

/-! ### C9 -/

/-- The synthetic aggregate document of the round-trip scenario: one
disk, one top-CPU process, one top-memory process, logs 3/1/0. -/
def demoData : AllData where
  general :=
    { date_time := "2024-05-01 10:00:00", pc_name := "demo-pc"
      user_name := "alice", «sudo» := "No", os := "Linux"
      kernel := "6.8.0", uptime := 3600 }
  environment :=
    { desktop_env := "GNOME", resolution := "1920x1080", shell := "/bin/bash" }
  hardware :=
    { cpu := { name := "x86_64", frequency := "3600.00 MHz", cores := 4, threads := 8 }
      ram := { total := "8.0 GB", used := "2.0 GB"
               swap_total := "2.0 GB", swap_used := "0.0 GB" }
      disks := [⟨"/dev/sda1", "/", "ext4", "2.0 GB"⟩]
      gpu := "Intel HD Graphics" }
  processes :=
    { cpu := [⟨2, "firefox", (25 : ℚ) / 2⟩]
      memory := [⟨3, "chrome", (31 : ℚ) / 4⟩] }
  logs := { success := 3, warnings := 1, errors := 0 }

set_option maxRecDepth 100000

set_option maxHeartbeats 2000000

theorem append_empty (s : String) : s ++ "" = s := by
  cases s with
  | mk l =>
    show String.mk (l ++ []) = String.mk l
    rw [List.append_nil]

/-- A rendered value free of the markup characters `<` and `>`. -/
def textOnly (s : String) : Bool :=
  s.toList.all fun c => !(c = '<' || c = '>')

theorem scanLine_append (st : ScanSt) (a b : String) :
    scanLine st (a ++ b) = scanLine (scanLine st a) b := by
  unfold scanLine
  rw [toList_append, List.foldl_append]

/-- Scanning markup-free text (no `<`) from outside a tag leaves the
scanner state unchanged. -/
theorem scanLine_text (st : ScanSt) (v : String) (h : st.inTag = false)
    (hv : textOnly v = true) : scanLine st v = st := by
  have hl : ∀ c ∈ v.toList, ¬(c = '<') := by
    intro c hc
    have hall := List.all_eq_true.mp hv c hc
    simp at hall
    exact hall.1
  suffices hgen : ∀ l : List Char, (∀ c ∈ l, ¬(c = '<')) →
      l.foldl scanStep st = st from hgen v.toList hl
  intro l
  induction l with
  | nil => intro _; rfl
  | cons c cs ih =>
    intro hcs
    have hstep : scanStep st c = st := by
      unfold scanStep
      rw [h]
      simp [hcs c (List.mem_cons_self c cs)]
    rw [List.foldl_cons, hstep]
    exact ih fun x hx => hcs x (List.mem_cons_of_mem _ hx)

theorem scanLines_singleton (st : ScanSt) (l : String) :
    scanLines st [l] = scanLine st l := rfl

/-- An aggregate document of the round-trip scenario's shape: arbitrary
general/environment/cpu/ram/gpu content, exactly one disk entry, one
top-CPU entry, one top-memory entry, and logs 3/1/0. -/
def mkData (g : GeneralInfo) (env : EnvInfo) (chw : CpuHw) (ram : RamInfo)
    (gpu : String) (d : DiskInfo) (pc : CpuEntry) (pm : MemEntry) : AllData :=
  { general := g
    environment := env
    hardware := { cpu := chw, ram := ram, disks := [d], gpu := gpu }
    processes := { cpu := [pc], memory := [pm] }
    logs := { success := 3, warnings := 1, errors := 0 } }

/-- Every string the renderer interpolates into the template for a
`mkData` document (the logs counts are fixed by the shape). -/
def renderedValues (g : GeneralInfo) (env : EnvInfo) (chw : CpuHw) (ram : RamInfo)
    (gpu : String) (d : DiskInfo) (pc : CpuEntry) (pm : MemEntry) : List String :=
  [g.date_time, g.pc_name, g.user_name, g.«sudo», g.os, g.kernel, tdRepr g.uptime,
   env.desktop_env, env.resolution, env.shell,
   chw.name, chw.frequency, toString chw.cores, toString chw.threads,
   ram.total, ram.used, ram.swap_total, ram.swap_used, gpu,
   d.device, d.mountpoint, d.fstype, d.free_space,
   toString pc.pid, pc.name, decRepr pc.cpu,
   toString pm.pid, pm.name, decRepr pm.memory]

/-- The rendered lines of a `mkData` document. -/
theorem reportLines_mkData (g : GeneralInfo) (env : EnvInfo) (chw : CpuHw)
    (ram : RamInfo) (gpu : String) (d : DiskInfo) (pc : CpuEntry) (pm : MemEntry) :
    reportLines (mkData g env chw ram gpu d pc pm) =
      [ ""
      , "    <!DOCTYPE html>"
      , "    <html lang=\"en\">"
      , "    <head>"
      , "        <meta charset=\"UTF-8\">"
      , "        <meta name=\"viewport\" content=\"width=device-width, initial-scale=1.0\">"
      , "        <title>Системный отчет</title>"
      , "        <style>"
      , "            body \x7b font-family: Arial, sans-serif; \x7d"
      , "            h1, h2 \x7b color: #333; \x7d"
      , "            table \x7b width: 100%; border-collapse: collapse; \x7d"
      , "            th, td \x7b border: 1px solid #ccc; padding: 8px; text-align: left; \x7d"
      , "            th \x7b background-color: #f4f4f4; \x7d"
      , "        </style>"
      , "    </head>"
      , "    <body>"
      , "        <h1>Отчет о системе</h1>"
      , "        <h2>Общая информация</h2>"
      , "        <table>"
      , "            <tr><th>Свойство</th><th>Значение</th></tr>"
      , "            <tr><td>Дата и время</td><td>" ++ g.date_time ++ "</td></tr>"
      , "            <tr><td>Наименование компьютера</td><td>" ++ g.pc_name ++ "</td></tr>"
      , "            <tr><td>Имя пользователя</td><td>" ++ g.user_name ++ " (sudo: " ++ g.«sudo» ++ ")</td></tr>"
      , "            <tr><td>Операционная система</td><td>" ++ g.os ++ "</td></tr>"
      , "            <tr><td>Ядро</td><td>" ++ g.kernel ++ "</td></tr>"
      , "            <tr><td>Время работы</td><td>" ++ tdRepr g.uptime ++ "</td></tr>"
      , "        </table>"
      , ""
      , "        <h2>Информация об окружении</h2>"
      , "        <table>"
      , "            <tr><th>Свойство</th><th>Значение</th></tr>"
      , "            <tr><td>Графическая оболочка</td><td>" ++ env.desktop_env ++ "</td></tr>"
      , "            <tr><td>Разрешение экрана</td><td>" ++ env.resolution ++ "</td></tr>"
      , "            <tr><td>Оболочка</td><td>" ++ env.shell ++ "</td></tr>"
      , "        </table>"
      , ""
      , "        <h2>Информация об аппаратном обеспечении</h2>"
      , "        <table>"
      , "            <tr><th>Компонент</th><th>Значение</th></tr>"
      , "            <tr><td>Процессор</td><td>" ++ chw.name ++ " (" ++ chw.frequency ++ "), " ++ toString chw.cores ++ " ядра(-ер) / " ++ toString chw.threads ++ " потока(-ов)</td></tr>"
      , "            <tr><td>Оперативная память</td><td>Всего: " ++ ram.total ++ ", Использовано: " ++ ram.used ++ ", Swap: " ++ ram.swap_total ++ " (Использовано: " ++ ram.swap_used ++ ")</td></tr>"
      , "            <tr><td>Видеокарта</td><td>" ++ gpu ++ "</td></tr>"
      , "        </table>"
      , "        <h3>Информация о диске</h3>"
      , "        <table>"
      , "            <tr><th>Устройство</th><th>Точка монтирования</th><th>Файловая система</th><th>Свободное пространство</th></tr>"
      , "            " ++ ("<tr><td>" ++ d.device ++ "</td><td>" ++ d.mountpoint ++ "</td><td>" ++ d.fstype ++ "</td><td>" ++ d.free_space ++ "</td></tr>" ++ "")
      , "        </table>"
      , ""
      , "        <h2>Наиболее ресурсоемкие процессы</h2>"
      , "        <h3>По использованию процессора</h3>"
      , "        <table>"
      , "            <tr><th>Идентификатор процесса (PID)</th><th>Наименование</th><th>Использование процессора (%)</th></tr>"
      , "            " ++ ("<tr><td>" ++ toString pc.pid ++ "</td><td>" ++ pc.name ++ "</td><td>" ++ decRepr pc.cpu ++ "%</td></tr>" ++ "")
      , "        </table>"
      , "        <h3>По использованию оперативной памяти</h3>"
      , "        <table>"
      , "            <tr><th>Идентификатор процесса (PID)</th><th>Наименование</th><th>Использование памяти (%)</th></tr>"
      , "            " ++ ("<tr><td>" ++ toString pm.pid ++ "</td><td>" ++ pm.name ++ "</td><td>" ++ decRepr pm.memory ++ "%</td></tr>" ++ "")
      , "        </table>"
      , ""
      , "        <h2>Анализ логов</h2>"
      , "        <table>"
      , "            <tr><th>Категория</th><th>Количество</th></tr>"
      , "            <tr><td>Успехи</td><td>3</td></tr>"
      , "            <tr><td>Предупреждения</td><td>1</td></tr>"
      , "            <tr><td>Ошибки</td><td>0</td></tr>"
      , "        </table>"
      , "    </body>"
      , "    </html>"
      , "    "
      ] := by
  with_unfolding_all rfl

/-- With every rendered value markup-free, the rendered report is
balanced: interpolated text never opens or closes a tag, so the scan
passes through the same tag-stack states for every such document. -/
theorem report_balanced_of_textOnly (g : GeneralInfo) (env : EnvInfo) (chw : CpuHw)
    (ram : RamInfo) (gpu : String) (d : DiskInfo) (pc : CpuEntry) (pm : MemEntry)
    (htext : ∀ v ∈ renderedValues g env chw ram gpu d pc pm, textOnly v = true) :
    htmlBalanced (generate_html_report (mkData g env chw ram gpu d pc pm)) = true := by
  have h1 : scanStep (scanLine (⟨false, [], [], true⟩ : ScanSt) "") '\n' = (⟨false, [], [], true⟩ : ScanSt) := by
    with_unfolding_all rfl
  have h2 : scanStep (scanLine (⟨false, [], [], true⟩ : ScanSt) "    <!DOCTYPE html>") '\n' = (⟨false, [], [], true⟩ : ScanSt) := by
    with_unfolding_all rfl
  have h3 : scanStep (scanLine (⟨false, [], [], true⟩ : ScanSt) "    <html lang=\"en\">") '\n' = (⟨false, [], ["html".toList], true⟩ : ScanSt) := by
    with_unfolding_all rfl
  have h4 : scanStep (scanLine (⟨false, [], ["html".toList], true⟩ : ScanSt) "    <head>") '\n' = (⟨false, [], ["head".toList, "html".toList], true⟩ : ScanSt) := by
    with_unfolding_all rfl
  have h5 : scanStep (scanLine (⟨false, [], ["head".toList, "html".toList], true⟩ : ScanSt) "        <meta charset=\"UTF-8\">") '\n' = (⟨false, [], ["head".toList, "html".toList], true⟩ : ScanSt) := by
    with_unfolding_all rfl
  have h6 : scanStep (scanLine (⟨false, [], ["head".toList, "html".toList], true⟩ : ScanSt) "        <meta name=\"viewport\" content=\"width=device-width, initial-scale=1.0\">") '\n' = (⟨false, [], ["head".toList, "html".toList], true⟩ : ScanSt) := by
    with_unfolding_all rfl
  have h7 : scanStep (scanLine (⟨false, [], ["head".toList, "html".toList], true⟩ : ScanSt) "        <title>Системный отчет</title>") '\n' = (⟨false, [], ["head".toList, "html".toList], true⟩ : ScanSt) := by
    with_unfolding_all rfl
  have h8 : scanStep (scanLine (⟨false, [], ["head".toList, "html".toList], true⟩ : ScanSt) "        <style>") '\n' = (⟨false, [], ["style".toList, "head".toList, "html".toList], true⟩ : ScanSt) := by
    with_unfolding_all rfl
  have h9 : scanStep (scanLine (⟨false, [], ["style".toList, "head".toList, "html".toList], true⟩ : ScanSt) "            body \x7b font-family: Arial, sans-serif; \x7d") '\n' = (⟨false, [], ["style".toList, "head".toList, "html".toList], true⟩ : ScanSt) := by
    with_unfolding_all rfl
  have h10 : scanStep (scanLine (⟨false, [], ["style".toList, "head".toList, "html".toList], true⟩ : ScanSt) "            h1, h2 \x7b color: #333; \x7d") '\n' = (⟨false, [], ["style".toList, "head".toList, "html".toList], true⟩ : ScanSt) := by
    with_unfolding_all rfl
  have h11 : scanStep (scanLine (⟨false, [], ["style".toList, "head".toList, "html".toList], true⟩ : ScanSt) "            table \x7b width: 100%; border-collapse: collapse; \x7d") '\n' = (⟨false, [], ["style".toList, "head".toList, "html".toList], true⟩ : ScanSt) := by
    with_unfolding_all rfl
  have h12 : scanStep (scanLine (⟨false, [], ["style".toList, "head".toList, "html".toList], true⟩ : ScanSt) "            th, td \x7b border: 1px solid #ccc; padding: 8px; text-align: left; \x7d") '\n' = (⟨false, [], ["style".toList, "head".toList, "html".toList], true⟩ : ScanSt) := by
    with_unfolding_all rfl
  have h13 : scanStep (scanLine (⟨false, [], ["style".toList, "head".toList, "html".toList], true⟩ : ScanSt) "            th \x7b background-color: #f4f4f4; \x7d") '\n' = (⟨false, [], ["style".toList, "head".toList, "html".toList], true⟩ : ScanSt) := by
    with_unfolding_all rfl
  have h14 : scanStep (scanLine (⟨false, [], ["style".toList, "head".toList, "html".toList], true⟩ : ScanSt) "        </style>") '\n' = (⟨false, [], ["head".toList, "html".toList], true⟩ : ScanSt) := by
    with_unfolding_all rfl
  have h15 : scanStep (scanLine (⟨false, [], ["head".toList, "html".toList], true⟩ : ScanSt) "    </head>") '\n' = (⟨false, [], ["html".toList], true⟩ : ScanSt) := by
    with_unfolding_all rfl
  have h16 : scanStep (scanLine (⟨false, [], ["html".toList], true⟩ : ScanSt) "    <body>") '\n' = (⟨false, [], ["body".toList, "html".toList], true⟩ : ScanSt) := by
    with_unfolding_all rfl
  have h17 : scanStep (scanLine (⟨false, [], ["body".toList, "html".toList], true⟩ : ScanSt) "        <h1>Отчет о системе</h1>") '\n' = (⟨false, [], ["body".toList, "html".toList], true⟩ : ScanSt) := by
    with_unfolding_all rfl
  have h18 : scanStep (scanLine (⟨false, [], ["body".toList, "html".toList], true⟩ : ScanSt) "        <h2>Общая информация</h2>") '\n' = (⟨false, [], ["body".toList, "html".toList], true⟩ : ScanSt) := by
    with_unfolding_all rfl
  have h19 : scanStep (scanLine (⟨false, [], ["body".toList, "html".toList], true⟩ : ScanSt) "        <table>") '\n' = (⟨false, [], ["table".toList, "body".toList, "html".toList], true⟩ : ScanSt) := by
    with_unfolding_all rfl
  have h20 : scanStep (scanLine (⟨false, [], ["table".toList, "body".toList, "html".toList], true⟩ : ScanSt) "            <tr><th>Свойство</th><th>Значение</th></tr>") '\n' = (⟨false, [], ["table".toList, "body".toList, "html".toList], true⟩ : ScanSt) := by
    with_unfolding_all rfl
  have h21 : scanStep (scanLine (⟨false, [], ["table".toList, "body".toList, "html".toList], true⟩ : ScanSt) ("            <tr><td>Дата и время</td><td>" ++ g.date_time ++ "</td></tr>")) '\n' = (⟨false, [], ["table".toList, "body".toList, "html".toList], true⟩ : ScanSt) := by
    have s22 : scanLine (⟨false, [], ["table".toList, "body".toList, "html".toList], true⟩ : ScanSt) "            <tr><td>Дата и время</td><td>" = (⟨false, [], ["td".toList, "tr".toList, "table".toList, "body".toList, "html".toList], true⟩ : ScanSt) := by
      with_unfolding_all rfl
    have s23 : scanLine (⟨false, [], ["td".toList, "tr".toList, "table".toList, "body".toList, "html".toList], true⟩ : ScanSt) "</td></tr>" = (⟨false, [], ["table".toList, "body".toList, "html".toList], true⟩ : ScanSt) := by
      with_unfolding_all rfl
    simp only [scanLine_append]
    rw [s22,
      scanLine_text (⟨false, [], ["td".toList, "tr".toList, "table".toList, "body".toList, "html".toList], true⟩ : ScanSt) (g.date_time) rfl (htext (g.date_time) (by simp [renderedValues])),
      s23]
    with_unfolding_all rfl
  have h24 : scanStep (scanLine (⟨false, [], ["table".toList, "body".toList, "html".toList], true⟩ : ScanSt) ("            <tr><td>Наименование компьютера</td><td>" ++ g.pc_name ++ "</td></tr>")) '\n' = (⟨false, [], ["table".toList, "body".toList, "html".toList], true⟩ : ScanSt) := by
    have s25 : scanLine (⟨false, [], ["table".toList, "body".toList, "html".toList], true⟩ : ScanSt) "            <tr><td>Наименование компьютера</td><td>" = (⟨false, [], ["td".toList, "tr".toList, "table".toList, "body".toList, "html".toList], true⟩ : ScanSt) := by
      with_unfolding_all rfl
    have s26 : scanLine (⟨false, [], ["td".toList, "tr".toList, "table".toList, "body".toList, "html".toList], true⟩ : ScanSt) "</td></tr>" = (⟨false, [], ["table".toList, "body".toList, "html".toList], true⟩ : ScanSt) := by
      with_unfolding_all rfl
    simp only [scanLine_append]
    rw [s25,
      scanLine_text (⟨false, [], ["td".toList, "tr".toList, "table".toList, "body".toList, "html".toList], true⟩ : ScanSt) (g.pc_name) rfl (htext (g.pc_name) (by simp [renderedValues])),
      s26]
    with_unfolding_all rfl
  have h27 : scanStep (scanLine (⟨false, [], ["table".toList, "body".toList, "html".toList], true⟩ : ScanSt) ("            <tr><td>Имя пользователя</td><td>" ++ g.user_name ++ " (sudo: " ++ g.«sudo» ++ ")</td></tr>")) '\n' = (⟨false, [], ["table".toList, "body".toList, "html".toList], true⟩ : ScanSt) := by
    have s28 : scanLine (⟨false, [], ["table".toList, "body".toList, "html".toList], true⟩ : ScanSt) "            <tr><td>Имя пользователя</td><td>" = (⟨false, [], ["td".toList, "tr".toList, "table".toList, "body".toList, "html".toList], true⟩ : ScanSt) := by
      with_unfolding_all rfl
    have s29 : scanLine (⟨false, [], ["td".toList, "tr".toList, "table".toList, "body".toList, "html".toList], true⟩ : ScanSt) " (sudo: " = (⟨false, [], ["td".toList, "tr".toList, "table".toList, "body".toList, "html".toList], true⟩ : ScanSt) := by
      with_unfolding_all rfl
    have s30 : scanLine (⟨false, [], ["td".toList, "tr".toList, "table".toList, "body".toList, "html".toList], true⟩ : ScanSt) ")</td></tr>" = (⟨false, [], ["table".toList, "body".toList, "html".toList], true⟩ : ScanSt) := by
      with_unfolding_all rfl
    simp only [scanLine_append]
    rw [s28,
      scanLine_text (⟨false, [], ["td".toList, "tr".toList, "table".toList, "body".toList, "html".toList], true⟩ : ScanSt) (g.user_name) rfl (htext (g.user_name) (by simp [renderedValues])),
      s29,
      scanLine_text (⟨false, [], ["td".toList, "tr".toList, "table".toList, "body".toList, "html".toList], true⟩ : ScanSt) (g.«sudo») rfl (htext (g.«sudo») (by simp [renderedValues])),
      s30]
    with_unfolding_all rfl
  have h31 : scanStep (scanLine (⟨false, [], ["table".toList, "body".toList, "html".toList], true⟩ : ScanSt) ("            <tr><td>Операционная система</td><td>" ++ g.os ++ "</td></tr>")) '\n' = (⟨false, [], ["table".toList, "body".toList, "html".toList], true⟩ : ScanSt) := by
    have s32 : scanLine (⟨false, [], ["table".toList, "body".toList, "html".toList], true⟩ : ScanSt) "            <tr><td>Операционная система</td><td>" = (⟨false, [], ["td".toList, "tr".toList, "table".toList, "body".toList, "html".toList], true⟩ : ScanSt) := by
      with_unfolding_all rfl
    have s33 : scanLine (⟨false, [], ["td".toList, "tr".toList, "table".toList, "body".toList, "html".toList], true⟩ : ScanSt) "</td></tr>" = (⟨false, [], ["table".toList, "body".toList, "html".toList], true⟩ : ScanSt) := by
      with_unfolding_all rfl
    simp only [scanLine_append]
    rw [s32,
      scanLine_text (⟨false, [], ["td".toList, "tr".toList, "table".toList, "body".toList, "html".toList], true⟩ : ScanSt) (g.os) rfl (htext (g.os) (by simp [renderedValues])),
      s33]
    with_unfolding_all rfl
  have h34 : scanStep (scanLine (⟨false, [], ["table".toList, "body".toList, "html".toList], true⟩ : ScanSt) ("            <tr><td>Ядро</td><td>" ++ g.kernel ++ "</td></tr>")) '\n' = (⟨false, [], ["table".toList, "body".toList, "html".toList], true⟩ : ScanSt) := by
    have s35 : scanLine (⟨false, [], ["table".toList, "body".toList, "html".toList], true⟩ : ScanSt) "            <tr><td>Ядро</td><td>" = (⟨false, [], ["td".toList, "tr".toList, "table".toList, "body".toList, "html".toList], true⟩ : ScanSt) := by
      with_unfolding_all rfl
    have s36 : scanLine (⟨false, [], ["td".toList, "tr".toList, "table".toList, "body".toList, "html".toList], true⟩ : ScanSt) "</td></tr>" = (⟨false, [], ["table".toList, "body".toList, "html".toList], true⟩ : ScanSt) := by
      with_unfolding_all rfl
    simp only [scanLine_append]
    rw [s35,
      scanLine_text (⟨false, [], ["td".toList, "tr".toList, "table".toList, "body".toList, "html".toList], true⟩ : ScanSt) (g.kernel) rfl (htext (g.kernel) (by simp [renderedValues])),
      s36]
    with_unfolding_all rfl
  have h37 : scanStep (scanLine (⟨false, [], ["table".toList, "body".toList, "html".toList], true⟩ : ScanSt) ("            <tr><td>Время работы</td><td>" ++ tdRepr g.uptime ++ "</td></tr>")) '\n' = (⟨false, [], ["table".toList, "body".toList, "html".toList], true⟩ : ScanSt) := by
    have s38 : scanLine (⟨false, [], ["table".toList, "body".toList, "html".toList], true⟩ : ScanSt) "            <tr><td>Время работы</td><td>" = (⟨false, [], ["td".toList, "tr".toList, "table".toList, "body".toList, "html".toList], true⟩ : ScanSt) := by
      with_unfolding_all rfl
    have s39 : scanLine (⟨false, [], ["td".toList, "tr".toList, "table".toList, "body".toList, "html".toList], true⟩ : ScanSt) "</td></tr>" = (⟨false, [], ["table".toList, "body".toList, "html".toList], true⟩ : ScanSt) := by
      with_unfolding_all rfl
    simp only [scanLine_append]
    rw [s38,
      scanLine_text (⟨false, [], ["td".toList, "tr".toList, "table".toList, "body".toList, "html".toList], true⟩ : ScanSt) (tdRepr g.uptime) rfl (htext (tdRepr g.uptime) (by simp [renderedValues])),
      s39]
    with_unfolding_all rfl
  have h40 : scanStep (scanLine (⟨false, [], ["table".toList, "body".toList, "html".toList], true⟩ : ScanSt) "        </table>") '\n' = (⟨false, [], ["body".toList, "html".toList], true⟩ : ScanSt) := by
    with_unfolding_all rfl
  have h41 : scanStep (scanLine (⟨false, [], ["body".toList, "html".toList], true⟩ : ScanSt) "") '\n' = (⟨false, [], ["body".toList, "html".toList], true⟩ : ScanSt) := by
    with_unfolding_all rfl
  have h42 : scanStep (scanLine (⟨false, [], ["body".toList, "html".toList], true⟩ : ScanSt) "        <h2>Информация об окружении</h2>") '\n' = (⟨false, [], ["body".toList, "html".toList], true⟩ : ScanSt) := by
    with_unfolding_all rfl
  have h43 : scanStep (scanLine (⟨false, [], ["table".toList, "body".toList, "html".toList], true⟩ : ScanSt) ("            <tr><td>Графическая оболочка</td><td>" ++ env.desktop_env ++ "</td></tr>")) '\n' = (⟨false, [], ["table".toList, "body".toList, "html".toList], true⟩ : ScanSt) := by
    have s44 : scanLine (⟨false, [], ["table".toList, "body".toList, "html".toList], true⟩ : ScanSt) "            <tr><td>Графическая оболочка</td><td>" = (⟨false, [], ["td".toList, "tr".toList, "table".toList, "body".toList, "html".toList], true⟩ : ScanSt) := by
      with_unfolding_all rfl
    have s45 : scanLine (⟨false, [], ["td".toList, "tr".toList, "table".toList, "body".toList, "html".toList], true⟩ : ScanSt) "</td></tr>" = (⟨false, [], ["table".toList, "body".toList, "html".toList], true⟩ : ScanSt) := by
      with_unfolding_all rfl
    simp only [scanLine_append]
    rw [s44,
      scanLine_text (⟨false, [], ["td".toList, "tr".toList, "table".toList, "body".toList, "html".toList], true⟩ : ScanSt) (env.desktop_env) rfl (htext (env.desktop_env) (by simp [renderedValues])),
      s45]
    with_unfolding_all rfl
  have h46 : scanStep (scanLine (⟨false, [], ["table".toList, "body".toList, "html".toList], true⟩ : ScanSt) ("            <tr><td>Разрешение экрана</td><td>" ++ env.resolution ++ "</td></tr>")) '\n' = (⟨false, [], ["table".toList, "body".toList, "html".toList], true⟩ : ScanSt) := by
    have s47 : scanLine (⟨false, [], ["table".toList, "body".toList, "html".toList], true⟩ : ScanSt) "            <tr><td>Разрешение экрана</td><td>" = (⟨false, [], ["td".toList, "tr".toList, "table".toList, "body".toList, "html".toList], true⟩ : ScanSt) := by
      with_unfolding_all rfl
    have s48 : scanLine (⟨false, [], ["td".toList, "tr".toList, "table".toList, "body".toList, "html".toList], true⟩ : ScanSt) "</td></tr>" = (⟨false, [], ["table".toList, "body".toList, "html".toList], true⟩ : ScanSt) := by
      with_unfolding_all rfl
    simp only [scanLine_append]
    rw [s47,
      scanLine_text (⟨false, [], ["td".toList, "tr".toList, "table".toList, "body".toList, "html".toList], true⟩ : ScanSt) (env.resolution) rfl (htext (env.resolution) (by simp [renderedValues])),
      s48]
    with_unfolding_all rfl
  have h49 : scanStep (scanLine (⟨false, [], ["table".toList, "body".toList, "html".toList], true⟩ : ScanSt) ("            <tr><td>Оболочка</td><td>" ++ env.shell ++ "</td></tr>")) '\n' = (⟨false, [], ["table".toList, "body".toList, "html".toList], true⟩ : ScanSt) := by
    have s50 : scanLine (⟨false, [], ["table".toList, "body".toList, "html".toList], true⟩ : ScanSt) "            <tr><td>Оболочка</td><td>" = (⟨false, [], ["td".toList, "tr".toList, "table".toList, "body".toList, "html".toList], true⟩ : ScanSt) := by
      with_unfolding_all rfl
    have s51 : scanLine (⟨false, [], ["td".toList, "tr".toList, "table".toList, "body".toList, "html".toList], true⟩ : ScanSt) "</td></tr>" = (⟨false, [], ["table".toList, "body".toList, "html".toList], true⟩ : ScanSt) := by
      with_unfolding_all rfl
    simp only [scanLine_append]
    rw [s50,
      scanLine_text (⟨false, [], ["td".toList, "tr".toList, "table".toList, "body".toList, "html".toList], true⟩ : ScanSt) (env.shell) rfl (htext (env.shell) (by simp [renderedValues])),
      s51]
    with_unfolding_all rfl
  have h52 : scanStep (scanLine (⟨false, [], ["body".toList, "html".toList], true⟩ : ScanSt) "        <h2>Информация об аппаратном обеспечении</h2>") '\n' = (⟨false, [], ["body".toList, "html".toList], true⟩ : ScanSt) := by
    with_unfolding_all rfl
  have h53 : scanStep (scanLine (⟨false, [], ["table".toList, "body".toList, "html".toList], true⟩ : ScanSt) "            <tr><th>Компонент</th><th>Значение</th></tr>") '\n' = (⟨false, [], ["table".toList, "body".toList, "html".toList], true⟩ : ScanSt) := by
    with_unfolding_all rfl
  have h54 : scanStep (scanLine (⟨false, [], ["table".toList, "body".toList, "html".toList], true⟩ : ScanSt) ("            <tr><td>Процессор</td><td>" ++ chw.name ++ " (" ++ chw.frequency ++ "), " ++ toString chw.cores ++ " ядра(-ер) / " ++ toString chw.threads ++ " потока(-ов)</td></tr>")) '\n' = (⟨false, [], ["table".toList, "body".toList, "html".toList], true⟩ : ScanSt) := by
    have s55 : scanLine (⟨false, [], ["table".toList, "body".toList, "html".toList], true⟩ : ScanSt) "            <tr><td>Процессор</td><td>" = (⟨false, [], ["td".toList, "tr".toList, "table".toList, "body".toList, "html".toList], true⟩ : ScanSt) := by
      with_unfolding_all rfl
    have s56 : scanLine (⟨false, [], ["td".toList, "tr".toList, "table".toList, "body".toList, "html".toList], true⟩ : ScanSt) " (" = (⟨false, [], ["td".toList, "tr".toList, "table".toList, "body".toList, "html".toList], true⟩ : ScanSt) := by
      with_unfolding_all rfl
    have s57 : scanLine (⟨false, [], ["td".toList, "tr".toList, "table".toList, "body".toList, "html".toList], true⟩ : ScanSt) "), " = (⟨false, [], ["td".toList, "tr".toList, "table".toList, "body".toList, "html".toList], true⟩ : ScanSt) := by
      with_unfolding_all rfl
    have s58 : scanLine (⟨false, [], ["td".toList, "tr".toList, "table".toList, "body".toList, "html".toList], true⟩ : ScanSt) " ядра(-ер) / " = (⟨false, [], ["td".toList, "tr".toList, "table".toList, "body".toList, "html".toList], true⟩ : ScanSt) := by
      with_unfolding_all rfl
    have s59 : scanLine (⟨false, [], ["td".toList, "tr".toList, "table".toList, "body".toList, "html".toList], true⟩ : ScanSt) " потока(-ов)</td></tr>" = (⟨false, [], ["table".toList, "body".toList, "html".toList], true⟩ : ScanSt) := by
      with_unfolding_all rfl
    simp only [scanLine_append]
    rw [s55,
      scanLine_text (⟨false, [], ["td".toList, "tr".toList, "table".toList, "body".toList, "html".toList], true⟩ : ScanSt) (chw.name) rfl (htext (chw.name) (by simp [renderedValues])),
      s56,
      scanLine_text (⟨false, [], ["td".toList, "tr".toList, "table".toList, "body".toList, "html".toList], true⟩ : ScanSt) (chw.frequency) rfl (htext (chw.frequency) (by simp [renderedValues])),
      s57,
      scanLine_text (⟨false, [], ["td".toList, "tr".toList, "table".toList, "body".toList, "html".toList], true⟩ : ScanSt) (toString chw.cores) rfl (htext (toString chw.cores) (by simp [renderedValues])),
      s58,
      scanLine_text (⟨false, [], ["td".toList, "tr".toList, "table".toList, "body".toList, "html".toList], true⟩ : ScanSt) (toString chw.threads) rfl (htext (toString chw.threads) (by simp [renderedValues])),
      s59]
    with_unfolding_all rfl
  have h60 : scanStep (scanLine (⟨false, [], ["table".toList, "body".toList, "html".toList], true⟩ : ScanSt) ("            <tr><td>Оперативная память</td><td>Всего: " ++ ram.total ++ ", Использовано: " ++ ram.used ++ ", Swap: " ++ ram.swap_total ++ " (Использовано: " ++ ram.swap_used ++ ")</td></tr>")) '\n' = (⟨false, [], ["table".toList, "body".toList, "html".toList], true⟩ : ScanSt) := by
    have s61 : scanLine (⟨false, [], ["table".toList, "body".toList, "html".toList], true⟩ : ScanSt) "            <tr><td>Оперативная память</td><td>Всего: " = (⟨false, [], ["td".toList, "tr".toList, "table".toList, "body".toList, "html".toList], true⟩ : ScanSt) := by
      with_unfolding_all rfl
    have s62 : scanLine (⟨false, [], ["td".toList, "tr".toList, "table".toList, "body".toList, "html".toList], true⟩ : ScanSt) ", Использовано: " = (⟨false, [], ["td".toList, "tr".toList, "table".toList, "body".toList, "html".toList], true⟩ : ScanSt) := by
      with_unfolding_all rfl
    have s63 : scanLine (⟨false, [], ["td".toList, "tr".toList, "table".toList, "body".toList, "html".toList], true⟩ : ScanSt) ", Swap: " = (⟨false, [], ["td".toList, "tr".toList, "table".toList, "body".toList, "html".toList], true⟩ : ScanSt) := by
      with_unfolding_all rfl
    have s64 : scanLine (⟨false, [], ["td".toList, "tr".toList, "table".toList, "body".toList, "html".toList], true⟩ : ScanSt) " (Использовано: " = (⟨false, [], ["td".toList, "tr".toList, "table".toList, "body".toList, "html".toList], true⟩ : ScanSt) := by
      with_unfolding_all rfl
    have s65 : scanLine (⟨false, [], ["td".toList, "tr".toList, "table".toList, "body".toList, "html".toList], true⟩ : ScanSt) ")</td></tr>" = (⟨false, [], ["table".toList, "body".toList, "html".toList], true⟩ : ScanSt) := by
      with_unfolding_all rfl
    simp only [scanLine_append]
    rw [s61,
      scanLine_text (⟨false, [], ["td".toList, "tr".toList, "table".toList, "body".toList, "html".toList], true⟩ : ScanSt) (ram.total) rfl (htext (ram.total) (by simp [renderedValues])),
      s62,
      scanLine_text (⟨false, [], ["td".toList, "tr".toList, "table".toList, "body".toList, "html".toList], true⟩ : ScanSt) (ram.used) rfl (htext (ram.used) (by simp [renderedValues])),
      s63,
      scanLine_text (⟨false, [], ["td".toList, "tr".toList, "table".toList, "body".toList, "html".toList], true⟩ : ScanSt) (ram.swap_total) rfl (htext (ram.swap_total) (by simp [renderedValues])),
      s64,
      scanLine_text (⟨false, [], ["td".toList, "tr".toList, "table".toList, "body".toList, "html".toList], true⟩ : ScanSt) (ram.swap_used) rfl (htext (ram.swap_used) (by simp [renderedValues])),
      s65]
    with_unfolding_all rfl
  have h66 : scanStep (scanLine (⟨false, [], ["table".toList, "body".toList, "html".toList], true⟩ : ScanSt) ("            <tr><td>Видеокарта</td><td>" ++ gpu ++ "</td></tr>")) '\n' = (⟨false, [], ["table".toList, "body".toList, "html".toList], true⟩ : ScanSt) := by
    have s67 : scanLine (⟨false, [], ["table".toList, "body".toList, "html".toList], true⟩ : ScanSt) "            <tr><td>Видеокарта</td><td>" = (⟨false, [], ["td".toList, "tr".toList, "table".toList, "body".toList, "html".toList], true⟩ : ScanSt) := by
      with_unfolding_all rfl
    have s68 : scanLine (⟨false, [], ["td".toList, "tr".toList, "table".toList, "body".toList, "html".toList], true⟩ : ScanSt) "</td></tr>" = (⟨false, [], ["table".toList, "body".toList, "html".toList], true⟩ : ScanSt) := by
      with_unfolding_all rfl
    simp only [scanLine_append]
    rw [s67,
      scanLine_text (⟨false, [], ["td".toList, "tr".toList, "table".toList, "body".toList, "html".toList], true⟩ : ScanSt) (gpu) rfl (htext (gpu) (by simp [renderedValues])),
      s68]
    with_unfolding_all rfl
  have h69 : scanStep (scanLine (⟨false, [], ["body".toList, "html".toList], true⟩ : ScanSt) "        <h3>Информация о диске</h3>") '\n' = (⟨false, [], ["body".toList, "html".toList], true⟩ : ScanSt) := by
    with_unfolding_all rfl
  have h70 : scanStep (scanLine (⟨false, [], ["table".toList, "body".toList, "html".toList], true⟩ : ScanSt) "            <tr><th>Устройство</th><th>Точка монтирования</th><th>Файловая система</th><th>Свободное пространство</th></tr>") '\n' = (⟨false, [], ["table".toList, "body".toList, "html".toList], true⟩ : ScanSt) := by
    with_unfolding_all rfl
  have h71 : scanStep (scanLine (⟨false, [], ["table".toList, "body".toList, "html".toList], true⟩ : ScanSt) ("            " ++ ("<tr><td>" ++ d.device ++ "</td><td>" ++ d.mountpoint ++ "</td><td>" ++ d.fstype ++ "</td><td>" ++ d.free_space ++ "</td></tr>" ++ ""))) '\n' = (⟨false, [], ["table".toList, "body".toList, "html".toList], true⟩ : ScanSt) := by
    have s72 : scanLine (⟨false, [], ["table".toList, "body".toList, "html".toList], true⟩ : ScanSt) "            " = (⟨false, [], ["table".toList, "body".toList, "html".toList], true⟩ : ScanSt) := by
      with_unfolding_all rfl
    have s73 : scanLine (⟨false, [], ["table".toList, "body".toList, "html".toList], true⟩ : ScanSt) "<tr><td>" = (⟨false, [], ["td".toList, "tr".toList, "table".toList, "body".toList, "html".toList], true⟩ : ScanSt) := by
      with_unfolding_all rfl
    have s74 : scanLine (⟨false, [], ["td".toList, "tr".toList, "table".toList, "body".toList, "html".toList], true⟩ : ScanSt) "</td><td>" = (⟨false, [], ["td".toList, "tr".toList, "table".toList, "body".toList, "html".toList], true⟩ : ScanSt) := by
      with_unfolding_all rfl
    have s75 : scanLine (⟨false, [], ["td".toList, "tr".toList, "table".toList, "body".toList, "html".toList], true⟩ : ScanSt) "</td></tr>" = (⟨false, [], ["table".toList, "body".toList, "html".toList], true⟩ : ScanSt) := by
      with_unfolding_all rfl
    simp only [scanLine_append]
    rw [s72,
      s73,
      scanLine_text (⟨false, [], ["td".toList, "tr".toList, "table".toList, "body".toList, "html".toList], true⟩ : ScanSt) (d.device) rfl (htext (d.device) (by simp [renderedValues])),
      s74,
      scanLine_text (⟨false, [], ["td".toList, "tr".toList, "table".toList, "body".toList, "html".toList], true⟩ : ScanSt) (d.mountpoint) rfl (htext (d.mountpoint) (by simp [renderedValues])),
      s74,
      scanLine_text (⟨false, [], ["td".toList, "tr".toList, "table".toList, "body".toList, "html".toList], true⟩ : ScanSt) (d.fstype) rfl (htext (d.fstype) (by simp [renderedValues])),
      s74,
      scanLine_text (⟨false, [], ["td".toList, "tr".toList, "table".toList, "body".toList, "html".toList], true⟩ : ScanSt) (d.free_space) rfl (htext (d.free_space) (by simp [renderedValues])),
      s75]
    with_unfolding_all rfl
  have h76 : scanStep (scanLine (⟨false, [], ["body".toList, "html".toList], true⟩ : ScanSt) "        <h2>Наиболее ресурсоемкие процессы</h2>") '\n' = (⟨false, [], ["body".toList, "html".toList], true⟩ : ScanSt) := by
    with_unfolding_all rfl
  have h77 : scanStep (scanLine (⟨false, [], ["body".toList, "html".toList], true⟩ : ScanSt) "        <h3>По использованию процессора</h3>") '\n' = (⟨false, [], ["body".toList, "html".toList], true⟩ : ScanSt) := by
    with_unfolding_all rfl
  have h78 : scanStep (scanLine (⟨false, [], ["table".toList, "body".toList, "html".toList], true⟩ : ScanSt) "            <tr><th>Идентификатор процесса (PID)</th><th>Наименование</th><th>Использование процессора (%)</th></tr>") '\n' = (⟨false, [], ["table".toList, "body".toList, "html".toList], true⟩ : ScanSt) := by
    with_unfolding_all rfl
  have h79 : scanStep (scanLine (⟨false, [], ["table".toList, "body".toList, "html".toList], true⟩ : ScanSt) ("            " ++ ("<tr><td>" ++ toString pc.pid ++ "</td><td>" ++ pc.name ++ "</td><td>" ++ decRepr pc.cpu ++ "%</td></tr>" ++ ""))) '\n' = (⟨false, [], ["table".toList, "body".toList, "html".toList], true⟩ : ScanSt) := by
    have s80 : scanLine (⟨false, [], ["table".toList, "body".toList, "html".toList], true⟩ : ScanSt) "            " = (⟨false, [], ["table".toList, "body".toList, "html".toList], true⟩ : ScanSt) := by
      with_unfolding_all rfl
    have s81 : scanLine (⟨false, [], ["table".toList, "body".toList, "html".toList], true⟩ : ScanSt) "<tr><td>" = (⟨false, [], ["td".toList, "tr".toList, "table".toList, "body".toList, "html".toList], true⟩ : ScanSt) := by
      with_unfolding_all rfl
    have s82 : scanLine (⟨false, [], ["td".toList, "tr".toList, "table".toList, "body".toList, "html".toList], true⟩ : ScanSt) "</td><td>" = (⟨false, [], ["td".toList, "tr".toList, "table".toList, "body".toList, "html".toList], true⟩ : ScanSt) := by
      with_unfolding_all rfl
    have s83 : scanLine (⟨false, [], ["td".toList, "tr".toList, "table".toList, "body".toList, "html".toList], true⟩ : ScanSt) "%</td></tr>" = (⟨false, [], ["table".toList, "body".toList, "html".toList], true⟩ : ScanSt) := by
      with_unfolding_all rfl
    simp only [scanLine_append]
    rw [s80,
      s81,
      scanLine_text (⟨false, [], ["td".toList, "tr".toList, "table".toList, "body".toList, "html".toList], true⟩ : ScanSt) (toString pc.pid) rfl (htext (toString pc.pid) (by simp [renderedValues])),
      s82,
      scanLine_text (⟨false, [], ["td".toList, "tr".toList, "table".toList, "body".toList, "html".toList], true⟩ : ScanSt) (pc.name) rfl (htext (pc.name) (by simp [renderedValues])),
      s82,
      scanLine_text (⟨false, [], ["td".toList, "tr".toList, "table".toList, "body".toList, "html".toList], true⟩ : ScanSt) (decRepr pc.cpu) rfl (htext (decRepr pc.cpu) (by simp [renderedValues])),
      s83]
    with_unfolding_all rfl
  have h84 : scanStep (scanLine (⟨false, [], ["body".toList, "html".toList], true⟩ : ScanSt) "        <h3>По использованию оперативной памяти</h3>") '\n' = (⟨false, [], ["body".toList, "html".toList], true⟩ : ScanSt) := by
    with_unfolding_all rfl
  have h85 : scanStep (scanLine (⟨false, [], ["table".toList, "body".toList, "html".toList], true⟩ : ScanSt) "            <tr><th>Идентификатор процесса (PID)</th><th>Наименование</th><th>Использование памяти (%)</th></tr>") '\n' = (⟨false, [], ["table".toList, "body".toList, "html".toList], true⟩ : ScanSt) := by
    with_unfolding_all rfl
  have h86 : scanStep (scanLine (⟨false, [], ["table".toList, "body".toList, "html".toList], true⟩ : ScanSt) ("            " ++ ("<tr><td>" ++ toString pm.pid ++ "</td><td>" ++ pm.name ++ "</td><td>" ++ decRepr pm.memory ++ "%</td></tr>" ++ ""))) '\n' = (⟨false, [], ["table".toList, "body".toList, "html".toList], true⟩ : ScanSt) := by
    have s87 : scanLine (⟨false, [], ["table".toList, "body".toList, "html".toList], true⟩ : ScanSt) "            " = (⟨false, [], ["table".toList, "body".toList, "html".toList], true⟩ : ScanSt) := by
      with_unfolding_all rfl
    have s88 : scanLine (⟨false, [], ["table".toList, "body".toList, "html".toList], true⟩ : ScanSt) "<tr><td>" = (⟨false, [], ["td".toList, "tr".toList, "table".toList, "body".toList, "html".toList], true⟩ : ScanSt) := by
      with_unfolding_all rfl
    have s89 : scanLine (⟨false, [], ["td".toList, "tr".toList, "table".toList, "body".toList, "html".toList], true⟩ : ScanSt) "</td><td>" = (⟨false, [], ["td".toList, "tr".toList, "table".toList, "body".toList, "html".toList], true⟩ : ScanSt) := by
      with_unfolding_all rfl
    have s90 : scanLine (⟨false, [], ["td".toList, "tr".toList, "table".toList, "body".toList, "html".toList], true⟩ : ScanSt) "%</td></tr>" = (⟨false, [], ["table".toList, "body".toList, "html".toList], true⟩ : ScanSt) := by
      with_unfolding_all rfl
    simp only [scanLine_append]
    rw [s87,
      s88,
      scanLine_text (⟨false, [], ["td".toList, "tr".toList, "table".toList, "body".toList, "html".toList], true⟩ : ScanSt) (toString pm.pid) rfl (htext (toString pm.pid) (by simp [renderedValues])),
      s89,
      scanLine_text (⟨false, [], ["td".toList, "tr".toList, "table".toList, "body".toList, "html".toList], true⟩ : ScanSt) (pm.name) rfl (htext (pm.name) (by simp [renderedValues])),
      s89,
      scanLine_text (⟨false, [], ["td".toList, "tr".toList, "table".toList, "body".toList, "html".toList], true⟩ : ScanSt) (decRepr pm.memory) rfl (htext (decRepr pm.memory) (by simp [renderedValues])),
      s90]
    with_unfolding_all rfl
  have h91 : scanStep (scanLine (⟨false, [], ["body".toList, "html".toList], true⟩ : ScanSt) "        <h2>Анализ логов</h2>") '\n' = (⟨false, [], ["body".toList, "html".toList], true⟩ : ScanSt) := by
    with_unfolding_all rfl
  have h92 : scanStep (scanLine (⟨false, [], ["table".toList, "body".toList, "html".toList], true⟩ : ScanSt) "            <tr><th>Категория</th><th>Количество</th></tr>") '\n' = (⟨false, [], ["table".toList, "body".toList, "html".toList], true⟩ : ScanSt) := by
    with_unfolding_all rfl
  have h93 : scanStep (scanLine (⟨false, [], ["table".toList, "body".toList, "html".toList], true⟩ : ScanSt) "            <tr><td>Успехи</td><td>3</td></tr>") '\n' = (⟨false, [], ["table".toList, "body".toList, "html".toList], true⟩ : ScanSt) := by
    with_unfolding_all rfl
  have h94 : scanStep (scanLine (⟨false, [], ["table".toList, "body".toList, "html".toList], true⟩ : ScanSt) "            <tr><td>Предупреждения</td><td>1</td></tr>") '\n' = (⟨false, [], ["table".toList, "body".toList, "html".toList], true⟩ : ScanSt) := by
    with_unfolding_all rfl
  have h95 : scanStep (scanLine (⟨false, [], ["table".toList, "body".toList, "html".toList], true⟩ : ScanSt) "            <tr><td>Ошибки</td><td>0</td></tr>") '\n' = (⟨false, [], ["table".toList, "body".toList, "html".toList], true⟩ : ScanSt) := by
    with_unfolding_all rfl
  have h96 : scanStep (scanLine (⟨false, [], ["body".toList, "html".toList], true⟩ : ScanSt) "    </body>") '\n' = (⟨false, [], ["html".toList], true⟩ : ScanSt) := by
    with_unfolding_all rfl
  have h97 : scanStep (scanLine (⟨false, [], ["html".toList], true⟩ : ScanSt) "    </html>") '\n' = (⟨false, [], [], true⟩ : ScanSt) := by
    with_unfolding_all rfl
  have h98 : scanLine (⟨false, [], [], true⟩ : ScanSt) "    " = (⟨false, [], [], true⟩ : ScanSt) := by
    with_unfolding_all rfl
  have hb : (joinNl (reportLines (mkData g env chw ram gpu d pc pm))).toList.foldl
      scanStep ⟨false, [], [], true⟩ = ⟨false, [], [], true⟩ := by
    rw [scanLines_eq, reportLines_mkData g env chw ram gpu d pc pm]
    rw [scanLines_cons₂, h1]
    rw [scanLines_cons₂, h2]
    rw [scanLines_cons₂, h3]
    rw [scanLines_cons₂, h4]
    rw [scanLines_cons₂, h5]
    rw [scanLines_cons₂, h6]
    rw [scanLines_cons₂, h7]
    rw [scanLines_cons₂, h8]
    rw [scanLines_cons₂, h9]
    rw [scanLines_cons₂, h10]
    rw [scanLines_cons₂, h11]
    rw [scanLines_cons₂, h12]
    rw [scanLines_cons₂, h13]
    rw [scanLines_cons₂, h14]
    rw [scanLines_cons₂, h15]
    rw [scanLines_cons₂, h16]
    rw [scanLines_cons₂, h17]
    rw [scanLines_cons₂, h18]
    rw [scanLines_cons₂, h19]
    rw [scanLines_cons₂, h20]
    rw [scanLines_cons₂, h21]
    rw [scanLines_cons₂, h24]
    rw [scanLines_cons₂, h27]
    rw [scanLines_cons₂, h31]
    rw [scanLines_cons₂, h34]
    rw [scanLines_cons₂, h37]
    rw [scanLines_cons₂, h40]
    rw [scanLines_cons₂, h41]
    rw [scanLines_cons₂, h42]
    rw [scanLines_cons₂, h19]
    rw [scanLines_cons₂, h20]
    rw [scanLines_cons₂, h43]
    rw [scanLines_cons₂, h46]
    rw [scanLines_cons₂, h49]
    rw [scanLines_cons₂, h40]
    rw [scanLines_cons₂, h41]
    rw [scanLines_cons₂, h52]
    rw [scanLines_cons₂, h19]
    rw [scanLines_cons₂, h53]
    rw [scanLines_cons₂, h54]
    rw [scanLines_cons₂, h60]
    rw [scanLines_cons₂, h66]
    rw [scanLines_cons₂, h40]
    rw [scanLines_cons₂, h69]
    rw [scanLines_cons₂, h19]
    rw [scanLines_cons₂, h70]
    rw [scanLines_cons₂, h71]
    rw [scanLines_cons₂, h40]
    rw [scanLines_cons₂, h41]
    rw [scanLines_cons₂, h76]
    rw [scanLines_cons₂, h77]
    rw [scanLines_cons₂, h19]
    rw [scanLines_cons₂, h78]
    rw [scanLines_cons₂, h79]
    rw [scanLines_cons₂, h40]
    rw [scanLines_cons₂, h84]
    rw [scanLines_cons₂, h19]
    rw [scanLines_cons₂, h85]
    rw [scanLines_cons₂, h86]
    rw [scanLines_cons₂, h40]
    rw [scanLines_cons₂, h41]
    rw [scanLines_cons₂, h91]
    rw [scanLines_cons₂, h19]
    rw [scanLines_cons₂, h92]
    rw [scanLines_cons₂, h93]
    rw [scanLines_cons₂, h94]
    rw [scanLines_cons₂, h95]
    rw [scanLines_cons₂, h40]
    rw [scanLines_cons₂, h96]
    rw [scanLines_cons₂, h97]
    rw [scanLines_singleton, h98]
  show htmlBalanced (joinNl (reportLines (mkData g env chw ram gpu d pc pm))) = true
  simp only [htmlBalanced]
  rw [hb]
  rfl

/-- C9 as amended: for every aggregate document of the claimed shape —
one disk entry, one top-CPU process entry, one top-memory process entry,
logs 3/1/0 — the renderer interpolates exactly one data row into each of
the disk, top-CPU and top-memory tables, carrying that entry's field
values literally, and each of those rows stands in the rendered
document's line list; and whenever every rendered field value is free of
the markup characters the rendered document is well-formed (every opened
tag closed).  The markup-free proviso is necessary: the renderer does no
HTML escaping, so markup-bearing values break well-formedness. -/
theorem html_report_shape (g : GeneralInfo) (env : EnvInfo) (chw : CpuHw)
    (ram : RamInfo) (gpu : String) (d : DiskInfo) (pc : CpuEntry) (pm : MemEntry) :
    concatAll ((mkData g env chw ram gpu d pc pm).hardware.disks.map diskRowHtml) =
      diskRowHtml d ∧
    concatAll ((mkData g env chw ram gpu d pc pm).processes.cpu.map cpuRowHtml) =
      cpuRowHtml pc ∧
    concatAll ((mkData g env chw ram gpu d pc pm).processes.memory.map memRowHtml) =
      memRowHtml pm ∧
    ("            " ++ diskRowHtml d) ∈ reportLines (mkData g env chw ram gpu d pc pm) ∧
    ("            " ++ cpuRowHtml pc) ∈ reportLines (mkData g env chw ram gpu d pc pm) ∧
    ("            " ++ memRowHtml pm) ∈ reportLines (mkData g env chw ram gpu d pc pm) ∧
    ((∀ v ∈ renderedValues g env chw ram gpu d pc pm, textOnly v = true) →
      htmlBalanced (generate_html_report (mkData g env chw ram gpu d pc pm)) = true) := by
  refine ⟨?_, ?_, ?_, ?_, ?_, ?_, ?_⟩
  · show concatAll ([d].map diskRowHtml) = diskRowHtml d
    exact append_empty _
  · show concatAll ([pc].map cpuRowHtml) = cpuRowHtml pc
    exact append_empty _
  · show concatAll ([pm].map memRowHtml) = memRowHtml pm
    exact append_empty _
  · rw [reportLines_mkData g env chw ram gpu d pc pm]
    have h47 : ("            " ++ diskRowHtml d) =
        "            " ++ ("<tr><td>" ++ d.device ++ "</td><td>" ++ d.mountpoint ++
          "</td><td>" ++ d.fstype ++ "</td><td>" ++ d.free_space ++ "</td></tr>" ++ "") := by
      rw [append_empty]
      with_unfolding_all rfl
    rw [h47]
    simp
  · rw [reportLines_mkData g env chw ram gpu d pc pm]
    have h54 : ("            " ++ cpuRowHtml pc) =
        "            " ++ ("<tr><td>" ++ toString pc.pid ++ "</td><td>" ++ pc.name ++
          "</td><td>" ++ decRepr pc.cpu ++ "%</td></tr>" ++ "") := by
      rw [append_empty]
      with_unfolding_all rfl
    rw [h54]
    simp
  · rw [reportLines_mkData g env chw ram gpu d pc pm]
    have h59 : ("            " ++ memRowHtml pm) =
        "            " ++ ("<tr><td>" ++ toString pm.pid ++ "</td><td>" ++ pm.name ++
          "</td><td>" ++ decRepr pm.memory ++ "%</td></tr>" ++ "") := by
      rw [append_empty]
      with_unfolding_all rfl
    rw [h59]
    simp
  · intro htext
    exact report_balanced_of_textOnly g env chw ram gpu d pc pm htext

/-- Witness for C9 (amended): at the concrete demo document every
rendered value is markup-free and the rendered report is balanced. -/
theorem html_report_shape_witness :
    (∀ v ∈ renderedValues demoData.general demoData.environment
        demoData.hardware.cpu demoData.hardware.ram demoData.hardware.gpu
        ⟨"/dev/sda1", "/", "ext4", "2.0 GB"⟩ ⟨2, "firefox", (25 : ℚ) / 2⟩
        ⟨3, "chrome", (31 : ℚ) / 4⟩, textOnly v = true) ∧
    htmlBalanced (generate_html_report (mkData demoData.general demoData.environment
      demoData.hardware.cpu demoData.hardware.ram demoData.hardware.gpu
      ⟨"/dev/sda1", "/", "ext4", "2.0 GB"⟩ ⟨2, "firefox", (25 : ℚ) / 2⟩
      ⟨3, "chrome", (31 : ℚ) / 4⟩)) = true := by
  have htext : ∀ v ∈ renderedValues demoData.general demoData.environment
      demoData.hardware.cpu demoData.hardware.ram demoData.hardware.gpu
      ⟨"/dev/sda1", "/", "ext4", "2.0 GB"⟩ ⟨2, "firefox", (25 : ℚ) / 2⟩
      ⟨3, "chrome", (31 : ℚ) / 4⟩, textOnly v = true := by
    intro v hv
    rw [show renderedValues demoData.general demoData.environment
        demoData.hardware.cpu demoData.hardware.ram demoData.hardware.gpu
        ⟨"/dev/sda1", "/", "ext4", "2.0 GB"⟩ ⟨2, "firefox", (25 : ℚ) / 2⟩
        ⟨3, "chrome", (31 : ℚ) / 4⟩ =
      ["2024-05-01 10:00:00", "demo-pc", "alice", "No", "Linux", "6.8.0",
       "1:00:00", "GNOME", "1920x1080", "/bin/bash", "x86_64", "3600.00 MHz",
       "4", "8", "8.0 GB", "2.0 GB", "2.0 GB", "0.0 GB", "Intel HD Graphics",
       "/dev/sda1", "/", "ext4", "2.0 GB", "2", "firefox", "12.5",
       "3", "chrome", "7.75"] from by with_unfolding_all rfl] at hv
    fin_cases hv <;> with_unfolding_all rfl
  exact ⟨htext, (html_report_shape demoData.general demoData.environment
    demoData.hardware.cpu demoData.hardware.ram demoData.hardware.gpu
    ⟨"/dev/sda1", "/", "ext4", "2.0 GB"⟩ ⟨2, "firefox", (25 : ℚ) / 2⟩
    ⟨3, "chrome", (31 : ℚ) / 4⟩).2.2.2.2.2.2 htext⟩

/-- The demo document with markup injected into the disk device field
(it still has the claimed shape: one disk, one top-CPU entry, one
top-memory entry, logs 3/1/0). -/
def demoDataEvil : AllData :=
  { demoData with hardware :=
      { demoData.hardware with disks := [⟨"<b>", "/", "ext4", "2.0 GB"⟩] } }

/-- Counterexample for C9 as stated: the renderer performs no HTML
escaping, so a document of the claimed shape whose disk device field
carries markup (an unclosed `b` tag) renders a document that is not
well-formed: the injected tag is opened and never closed. -/
theorem html_report_markup_unbalanced :
    htmlBalanced (generate_html_report demoDataEvil) = false := by
  have e0 : reportLines demoDataEvil =
      [ ""
      , "    <!DOCTYPE html>"
      , "    <html lang=\"en\">"
      , "    <head>"
      , "        <meta charset=\"UTF-8\">"
      , "        <meta name=\"viewport\" content=\"width=device-width, initial-scale=1.0\">"
      , "        <title>Системный отчет</title>"
      , "        <style>"
      , "            body \x7b font-family: Arial, sans-serif; \x7d"
      , "            h1, h2 \x7b color: #333; \x7d"
      , "            table \x7b width: 100%; border-collapse: collapse; \x7d"
      , "            th, td \x7b border: 1px solid #ccc; padding: 8px; text-align: left; \x7d"
      , "            th \x7b background-color: #f4f4f4; \x7d"
      , "        </style>"
      , "    </head>"
      , "    <body>"
      , "        <h1>Отчет о системе</h1>"
      , "        <h2>Общая информация</h2>"
      , "        <table>"
      , "            <tr><th>Свойство</th><th>Значение</th></tr>"
      , "            <tr><td>Дата и время</td><td>2024-05-01 10:00:00</td></tr>"
      , "            <tr><td>Наименование компьютера</td><td>demo-pc</td></tr>"
      , "            <tr><td>Имя пользователя</td><td>alice (sudo: No)</td></tr>"
      , "            <tr><td>Операционная система</td><td>Linux</td></tr>"
      , "            <tr><td>Ядро</td><td>6.8.0</td></tr>"
      , "            <tr><td>Время работы</td><td>1:00:00</td></tr>"
      , "        </table>"
      , ""
      , "        <h2>Информация об окружении</h2>"
      , "        <table>"
      , "            <tr><th>Свойство</th><th>Значение</th></tr>"
      , "            <tr><td>Графическая оболочка</td><td>GNOME</td></tr>"
      , "            <tr><td>Разрешение экрана</td><td>1920x1080</td></tr>"
      , "            <tr><td>Оболочка</td><td>/bin/bash</td></tr>"
      , "        </table>"
      , ""
      , "        <h2>Информация об аппаратном обеспечении</h2>"
      , "        <table>"
      , "            <tr><th>Компонент</th><th>Значение</th></tr>"
      , "            <tr><td>Процессор</td><td>x86_64 (3600.00 MHz), 4 ядра(-ер) / 8 потока(-ов)</td></tr>"
      , "            <tr><td>Оперативная память</td><td>Всего: 8.0 GB, Использовано: 2.0 GB, Swap: 2.0 GB (Использовано: 0.0 GB)</td></tr>"
      , "            <tr><td>Видеокарта</td><td>Intel HD Graphics</td></tr>"
      , "        </table>"
      , "        <h3>Информация о диске</h3>"
      , "        <table>"
      , "            <tr><th>Устройство</th><th>Точка монтирования</th><th>Файловая система</th><th>Свободное пространство</th></tr>"
      , "            <tr><td><b></td><td>/</td><td>ext4</td><td>2.0 GB</td></tr>"
      , "        </table>"
      , ""
      , "        <h2>Наиболее ресурсоемкие процессы</h2>"
      , "        <h3>По использованию процессора</h3>"
      , "        <table>"
      , "            <tr><th>Идентификатор процесса (PID)</th><th>Наименование</th><th>Использование процессора (%)</th></tr>"
      , "            <tr><td>2</td><td>firefox</td><td>12.5%</td></tr>"
      , "        </table>"
      , "        <h3>По использованию оперативной памяти</h3>"
      , "        <table>"
      , "            <tr><th>Идентификатор процесса (PID)</th><th>Наименование</th><th>Использование памяти (%)</th></tr>"
      , "            <tr><td>3</td><td>chrome</td><td>7.75%</td></tr>"
      , "        </table>"
      , ""
      , "        <h2>Анализ логов</h2>"
      , "        <table>"
      , "            <tr><th>Категория</th><th>Количество</th></tr>"
      , "            <tr><td>Успехи</td><td>3</td></tr>"
      , "            <tr><td>Предупреждения</td><td>1</td></tr>"
      , "            <tr><td>Ошибки</td><td>0</td></tr>"
      , "        </table>"
      , "    </body>"
      , "    </html>"
      , "    "
      ] := by
    with_unfolding_all rfl
  have h1 : scanStep (scanLine (⟨false, [], [], true⟩ : ScanSt) "") '\n' = (⟨false, [], [], true⟩ : ScanSt) := by
    with_unfolding_all rfl
  have h2 : scanStep (scanLine (⟨false, [], [], true⟩ : ScanSt) "    <!DOCTYPE html>") '\n' = (⟨false, [], [], true⟩ : ScanSt) := by
    with_unfolding_all rfl
  have h3 : scanStep (scanLine (⟨false, [], [], true⟩ : ScanSt) "    <html lang=\"en\">") '\n' = (⟨false, [], ["html".toList], true⟩ : ScanSt) := by
    with_unfolding_all rfl
  have h4 : scanStep (scanLine (⟨false, [], ["html".toList], true⟩ : ScanSt) "    <head>") '\n' = (⟨false, [], ["head".toList, "html".toList], true⟩ : ScanSt) := by
    with_unfolding_all rfl
  have h5 : scanStep (scanLine (⟨false, [], ["head".toList, "html".toList], true⟩ : ScanSt) "        <meta charset=\"UTF-8\">") '\n' = (⟨false, [], ["head".toList, "html".toList], true⟩ : ScanSt) := by
    with_unfolding_all rfl
  have h6 : scanStep (scanLine (⟨false, [], ["head".toList, "html".toList], true⟩ : ScanSt) "        <meta name=\"viewport\" content=\"width=device-width, initial-scale=1.0\">") '\n' = (⟨false, [], ["head".toList, "html".toList], true⟩ : ScanSt) := by
    with_unfolding_all rfl
  have h7 : scanStep (scanLine (⟨false, [], ["head".toList, "html".toList], true⟩ : ScanSt) "        <title>Системный отчет</title>") '\n' = (⟨false, [], ["head".toList, "html".toList], true⟩ : ScanSt) := by
    with_unfolding_all rfl
  have h8 : scanStep (scanLine (⟨false, [], ["head".toList, "html".toList], true⟩ : ScanSt) "        <style>") '\n' = (⟨false, [], ["style".toList, "head".toList, "html".toList], true⟩ : ScanSt) := by
    with_unfolding_all rfl
  have h9 : scanStep (scanLine (⟨false, [], ["style".toList, "head".toList, "html".toList], true⟩ : ScanSt) "            body \x7b font-family: Arial, sans-serif; \x7d") '\n' = (⟨false, [], ["style".toList, "head".toList, "html".toList], true⟩ : ScanSt) := by
    with_unfolding_all rfl
  have h10 : scanStep (scanLine (⟨false, [], ["style".toList, "head".toList, "html".toList], true⟩ : ScanSt) "            h1, h2 \x7b color: #333; \x7d") '\n' = (⟨false, [], ["style".toList, "head".toList, "html".toList], true⟩ : ScanSt) := by
    with_unfolding_all rfl
  have h11 : scanStep (scanLine (⟨false, [], ["style".toList, "head".toList, "html".toList], true⟩ : ScanSt) "            table \x7b width: 100%; border-collapse: collapse; \x7d") '\n' = (⟨false, [], ["style".toList, "head".toList, "html".toList], true⟩ : ScanSt) := by
    with_unfolding_all rfl
  have h12 : scanStep (scanLine (⟨false, [], ["style".toList, "head".toList, "html".toList], true⟩ : ScanSt) "            th, td \x7b border: 1px solid #ccc; padding: 8px; text-align: left; \x7d") '\n' = (⟨false, [], ["style".toList, "head".toList, "html".toList], true⟩ : ScanSt) := by
    with_unfolding_all rfl
  have h13 : scanStep (scanLine (⟨false, [], ["style".toList, "head".toList, "html".toList], true⟩ : ScanSt) "            th \x7b background-color: #f4f4f4; \x7d") '\n' = (⟨false, [], ["style".toList, "head".toList, "html".toList], true⟩ : ScanSt) := by
    with_unfolding_all rfl
  have h14 : scanStep (scanLine (⟨false, [], ["style".toList, "head".toList, "html".toList], true⟩ : ScanSt) "        </style>") '\n' = (⟨false, [], ["head".toList, "html".toList], true⟩ : ScanSt) := by
    with_unfolding_all rfl
  have h15 : scanStep (scanLine (⟨false, [], ["head".toList, "html".toList], true⟩ : ScanSt) "    </head>") '\n' = (⟨false, [], ["html".toList], true⟩ : ScanSt) := by
    with_unfolding_all rfl
  have h16 : scanStep (scanLine (⟨false, [], ["html".toList], true⟩ : ScanSt) "    <body>") '\n' = (⟨false, [], ["body".toList, "html".toList], true⟩ : ScanSt) := by
    with_unfolding_all rfl
  have h17 : scanStep (scanLine (⟨false, [], ["body".toList, "html".toList], true⟩ : ScanSt) "        <h1>Отчет о системе</h1>") '\n' = (⟨false, [], ["body".toList, "html".toList], true⟩ : ScanSt) := by
    with_unfolding_all rfl
  have h18 : scanStep (scanLine (⟨false, [], ["body".toList, "html".toList], true⟩ : ScanSt) "        <h2>Общая информация</h2>") '\n' = (⟨false, [], ["body".toList, "html".toList], true⟩ : ScanSt) := by
    with_unfolding_all rfl
  have h19 : scanStep (scanLine (⟨false, [], ["body".toList, "html".toList], true⟩ : ScanSt) "        <table>") '\n' = (⟨false, [], ["table".toList, "body".toList, "html".toList], true⟩ : ScanSt) := by
    with_unfolding_all rfl
  have h20 : scanStep (scanLine (⟨false, [], ["table".toList, "body".toList, "html".toList], true⟩ : ScanSt) "            <tr><th>Свойство</th><th>Значение</th></tr>") '\n' = (⟨false, [], ["table".toList, "body".toList, "html".toList], true⟩ : ScanSt) := by
    with_unfolding_all rfl
  have h21 : scanStep (scanLine (⟨false, [], ["table".toList, "body".toList, "html".toList], true⟩ : ScanSt) "            <tr><td>Дата и время</td><td>2024-05-01 10:00:00</td></tr>") '\n' = (⟨false, [], ["table".toList, "body".toList, "html".toList], true⟩ : ScanSt) := by
    with_unfolding_all rfl
  have h22 : scanStep (scanLine (⟨false, [], ["table".toList, "body".toList, "html".toList], true⟩ : ScanSt) "            <tr><td>Наименование компьютера</td><td>demo-pc</td></tr>") '\n' = (⟨false, [], ["table".toList, "body".toList, "html".toList], true⟩ : ScanSt) := by
    with_unfolding_all rfl
  have h23 : scanStep (scanLine (⟨false, [], ["table".toList, "body".toList, "html".toList], true⟩ : ScanSt) "            <tr><td>Имя пользователя</td><td>alice (sudo: No)</td></tr>") '\n' = (⟨false, [], ["table".toList, "body".toList, "html".toList], true⟩ : ScanSt) := by
    with_unfolding_all rfl
  have h24 : scanStep (scanLine (⟨false, [], ["table".toList, "body".toList, "html".toList], true⟩ : ScanSt) "            <tr><td>Операционная система</td><td>Linux</td></tr>") '\n' = (⟨false, [], ["table".toList, "body".toList, "html".toList], true⟩ : ScanSt) := by
    with_unfolding_all rfl
  have h25 : scanStep (scanLine (⟨false, [], ["table".toList, "body".toList, "html".toList], true⟩ : ScanSt) "            <tr><td>Ядро</td><td>6.8.0</td></tr>") '\n' = (⟨false, [], ["table".toList, "body".toList, "html".toList], true⟩ : ScanSt) := by
    with_unfolding_all rfl
  have h26 : scanStep (scanLine (⟨false, [], ["table".toList, "body".toList, "html".toList], true⟩ : ScanSt) "            <tr><td>Время работы</td><td>1:00:00</td></tr>") '\n' = (⟨false, [], ["table".toList, "body".toList, "html".toList], true⟩ : ScanSt) := by
    with_unfolding_all rfl
  have h27 : scanStep (scanLine (⟨false, [], ["table".toList, "body".toList, "html".toList], true⟩ : ScanSt) "        </table>") '\n' = (⟨false, [], ["body".toList, "html".toList], true⟩ : ScanSt) := by
    with_unfolding_all rfl
  have h28 : scanStep (scanLine (⟨false, [], ["body".toList, "html".toList], true⟩ : ScanSt) "") '\n' = (⟨false, [], ["body".toList, "html".toList], true⟩ : ScanSt) := by
    with_unfolding_all rfl
  have h29 : scanStep (scanLine (⟨false, [], ["body".toList, "html".toList], true⟩ : ScanSt) "        <h2>Информация об окружении</h2>") '\n' = (⟨false, [], ["body".toList, "html".toList], true⟩ : ScanSt) := by
    with_unfolding_all rfl
  have h30 : scanStep (scanLine (⟨false, [], ["table".toList, "body".toList, "html".toList], true⟩ : ScanSt) "            <tr><td>Графическая оболочка</td><td>GNOME</td></tr>") '\n' = (⟨false, [], ["table".toList, "body".toList, "html".toList], true⟩ : ScanSt) := by
    with_unfolding_all rfl
  have h31 : scanStep (scanLine (⟨false, [], ["table".toList, "body".toList, "html".toList], true⟩ : ScanSt) "            <tr><td>Разрешение экрана</td><td>1920x1080</td></tr>") '\n' = (⟨false, [], ["table".toList, "body".toList, "html".toList], true⟩ : ScanSt) := by
    with_unfolding_all rfl
  have h32 : scanStep (scanLine (⟨false, [], ["table".toList, "body".toList, "html".toList], true⟩ : ScanSt) "            <tr><td>Оболочка</td><td>/bin/bash</td></tr>") '\n' = (⟨false, [], ["table".toList, "body".toList, "html".toList], true⟩ : ScanSt) := by
    with_unfolding_all rfl
  have h33 : scanStep (scanLine (⟨false, [], ["body".toList, "html".toList], true⟩ : ScanSt) "        <h2>Информация об аппаратном обеспечении</h2>") '\n' = (⟨false, [], ["body".toList, "html".toList], true⟩ : ScanSt) := by
    with_unfolding_all rfl
  have h34 : scanStep (scanLine (⟨false, [], ["table".toList, "body".toList, "html".toList], true⟩ : ScanSt) "            <tr><th>Компонент</th><th>Значение</th></tr>") '\n' = (⟨false, [], ["table".toList, "body".toList, "html".toList], true⟩ : ScanSt) := by
    with_unfolding_all rfl
  have h35 : scanStep (scanLine (⟨false, [], ["table".toList, "body".toList, "html".toList], true⟩ : ScanSt) "            <tr><td>Процессор</td><td>x86_64 (3600.00 MHz), 4 ядра(-ер) / 8 потока(-ов)</td></tr>") '\n' = (⟨false, [], ["table".toList, "body".toList, "html".toList], true⟩ : ScanSt) := by
    with_unfolding_all rfl
  have h36 : scanStep (scanLine (⟨false, [], ["table".toList, "body".toList, "html".toList], true⟩ : ScanSt) "            <tr><td>Оперативная память</td><td>Всего: 8.0 GB, Использовано: 2.0 GB, Swap: 2.0 GB (Использовано: 0.0 GB)</td></tr>") '\n' = (⟨false, [], ["table".toList, "body".toList, "html".toList], true⟩ : ScanSt) := by
    with_unfolding_all rfl
  have h37 : scanStep (scanLine (⟨false, [], ["table".toList, "body".toList, "html".toList], true⟩ : ScanSt) "            <tr><td>Видеокарта</td><td>Intel HD Graphics</td></tr>") '\n' = (⟨false, [], ["table".toList, "body".toList, "html".toList], true⟩ : ScanSt) := by
    with_unfolding_all rfl
  have h38 : scanStep (scanLine (⟨false, [], ["body".toList, "html".toList], true⟩ : ScanSt) "        <h3>Информация о диске</h3>") '\n' = (⟨false, [], ["body".toList, "html".toList], true⟩ : ScanSt) := by
    with_unfolding_all rfl
  have h39 : scanStep (scanLine (⟨false, [], ["table".toList, "body".toList, "html".toList], true⟩ : ScanSt) "            <tr><th>Устройство</th><th>Точка монтирования</th><th>Файловая система</th><th>Свободное пространство</th></tr>") '\n' = (⟨false, [], ["table".toList, "body".toList, "html".toList], true⟩ : ScanSt) := by
    with_unfolding_all rfl
  have h40 : scanStep (scanLine (⟨false, [], ["table".toList, "body".toList, "html".toList], true⟩ : ScanSt) "            <tr><td><b></td><td>/</td><td>ext4</td><td>2.0 GB</td></tr>") '\n' = (⟨false, [], ["b".toList, "td".toList, "tr".toList, "table".toList, "body".toList, "html".toList], false⟩ : ScanSt) := by
    with_unfolding_all rfl
  have h41 : scanStep (scanLine (⟨false, [], ["b".toList, "td".toList, "tr".toList, "table".toList, "body".toList, "html".toList], false⟩ : ScanSt) "        </table>") '\n' = (⟨false, [], ["b".toList, "td".toList, "tr".toList, "table".toList, "body".toList, "html".toList], false⟩ : ScanSt) := by
    with_unfolding_all rfl
  have h42 : scanStep (scanLine (⟨false, [], ["b".toList, "td".toList, "tr".toList, "table".toList, "body".toList, "html".toList], false⟩ : ScanSt) "") '\n' = (⟨false, [], ["b".toList, "td".toList, "tr".toList, "table".toList, "body".toList, "html".toList], false⟩ : ScanSt) := by
    with_unfolding_all rfl
  have h43 : scanStep (scanLine (⟨false, [], ["b".toList, "td".toList, "tr".toList, "table".toList, "body".toList, "html".toList], false⟩ : ScanSt) "        <h2>Наиболее ресурсоемкие процессы</h2>") '\n' = (⟨false, [], ["b".toList, "td".toList, "tr".toList, "table".toList, "body".toList, "html".toList], false⟩ : ScanSt) := by
    with_unfolding_all rfl
  have h44 : scanStep (scanLine (⟨false, [], ["b".toList, "td".toList, "tr".toList, "table".toList, "body".toList, "html".toList], false⟩ : ScanSt) "        <h3>По использованию процессора</h3>") '\n' = (⟨false, [], ["b".toList, "td".toList, "tr".toList, "table".toList, "body".toList, "html".toList], false⟩ : ScanSt) := by
    with_unfolding_all rfl
  have h45 : scanStep (scanLine (⟨false, [], ["b".toList, "td".toList, "tr".toList, "table".toList, "body".toList, "html".toList], false⟩ : ScanSt) "        <table>") '\n' = (⟨false, [], ["table".toList, "b".toList, "td".toList, "tr".toList, "table".toList, "body".toList, "html".toList], false⟩ : ScanSt) := by
    with_unfolding_all rfl
  have h46 : scanStep (scanLine (⟨false, [], ["table".toList, "b".toList, "td".toList, "tr".toList, "table".toList, "body".toList, "html".toList], false⟩ : ScanSt) "            <tr><th>Идентификатор процесса (PID)</th><th>Наименование</th><th>Использование процессора (%)</th></tr>") '\n' = (⟨false, [], ["table".toList, "b".toList, "td".toList, "tr".toList, "table".toList, "body".toList, "html".toList], false⟩ : ScanSt) := by
    with_unfolding_all rfl
  have h47 : scanStep (scanLine (⟨false, [], ["table".toList, "b".toList, "td".toList, "tr".toList, "table".toList, "body".toList, "html".toList], false⟩ : ScanSt) "            <tr><td>2</td><td>firefox</td><td>12.5%</td></tr>") '\n' = (⟨false, [], ["table".toList, "b".toList, "td".toList, "tr".toList, "table".toList, "body".toList, "html".toList], false⟩ : ScanSt) := by
    with_unfolding_all rfl
  have h48 : scanStep (scanLine (⟨false, [], ["table".toList, "b".toList, "td".toList, "tr".toList, "table".toList, "body".toList, "html".toList], false⟩ : ScanSt) "        </table>") '\n' = (⟨false, [], ["b".toList, "td".toList, "tr".toList, "table".toList, "body".toList, "html".toList], false⟩ : ScanSt) := by
    with_unfolding_all rfl
  have h49 : scanStep (scanLine (⟨false, [], ["b".toList, "td".toList, "tr".toList, "table".toList, "body".toList, "html".toList], false⟩ : ScanSt) "        <h3>По использованию оперативной памяти</h3>") '\n' = (⟨false, [], ["b".toList, "td".toList, "tr".toList, "table".toList, "body".toList, "html".toList], false⟩ : ScanSt) := by
    with_unfolding_all rfl
  have h50 : scanStep (scanLine (⟨false, [], ["table".toList, "b".toList, "td".toList, "tr".toList, "table".toList, "body".toList, "html".toList], false⟩ : ScanSt) "            <tr><th>Идентификатор процесса (PID)</th><th>Наименование</th><th>Использование памяти (%)</th></tr>") '\n' = (⟨false, [], ["table".toList, "b".toList, "td".toList, "tr".toList, "table".toList, "body".toList, "html".toList], false⟩ : ScanSt) := by
    with_unfolding_all rfl
  have h51 : scanStep (scanLine (⟨false, [], ["table".toList, "b".toList, "td".toList, "tr".toList, "table".toList, "body".toList, "html".toList], false⟩ : ScanSt) "            <tr><td>3</td><td>chrome</td><td>7.75%</td></tr>") '\n' = (⟨false, [], ["table".toList, "b".toList, "td".toList, "tr".toList, "table".toList, "body".toList, "html".toList], false⟩ : ScanSt) := by
    with_unfolding_all rfl
  have h52 : scanStep (scanLine (⟨false, [], ["b".toList, "td".toList, "tr".toList, "table".toList, "body".toList, "html".toList], false⟩ : ScanSt) "        <h2>Анализ логов</h2>") '\n' = (⟨false, [], ["b".toList, "td".toList, "tr".toList, "table".toList, "body".toList, "html".toList], false⟩ : ScanSt) := by
    with_unfolding_all rfl
  have h53 : scanStep (scanLine (⟨false, [], ["table".toList, "b".toList, "td".toList, "tr".toList, "table".toList, "body".toList, "html".toList], false⟩ : ScanSt) "            <tr><th>Категория</th><th>Количество</th></tr>") '\n' = (⟨false, [], ["table".toList, "b".toList, "td".toList, "tr".toList, "table".toList, "body".toList, "html".toList], false⟩ : ScanSt) := by
    with_unfolding_all rfl
  have h54 : scanStep (scanLine (⟨false, [], ["table".toList, "b".toList, "td".toList, "tr".toList, "table".toList, "body".toList, "html".toList], false⟩ : ScanSt) "            <tr><td>Успехи</td><td>3</td></tr>") '\n' = (⟨false, [], ["table".toList, "b".toList, "td".toList, "tr".toList, "table".toList, "body".toList, "html".toList], false⟩ : ScanSt) := by
    with_unfolding_all rfl
  have h55 : scanStep (scanLine (⟨false, [], ["table".toList, "b".toList, "td".toList, "tr".toList, "table".toList, "body".toList, "html".toList], false⟩ : ScanSt) "            <tr><td>Предупреждения</td><td>1</td></tr>") '\n' = (⟨false, [], ["table".toList, "b".toList, "td".toList, "tr".toList, "table".toList, "body".toList, "html".toList], false⟩ : ScanSt) := by
    with_unfolding_all rfl
  have h56 : scanStep (scanLine (⟨false, [], ["table".toList, "b".toList, "td".toList, "tr".toList, "table".toList, "body".toList, "html".toList], false⟩ : ScanSt) "            <tr><td>Ошибки</td><td>0</td></tr>") '\n' = (⟨false, [], ["table".toList, "b".toList, "td".toList, "tr".toList, "table".toList, "body".toList, "html".toList], false⟩ : ScanSt) := by
    with_unfolding_all rfl
  have h57 : scanStep (scanLine (⟨false, [], ["b".toList, "td".toList, "tr".toList, "table".toList, "body".toList, "html".toList], false⟩ : ScanSt) "    </body>") '\n' = (⟨false, [], ["b".toList, "td".toList, "tr".toList, "table".toList, "body".toList, "html".toList], false⟩ : ScanSt) := by
    with_unfolding_all rfl
  have h58 : scanStep (scanLine (⟨false, [], ["b".toList, "td".toList, "tr".toList, "table".toList, "body".toList, "html".toList], false⟩ : ScanSt) "    </html>") '\n' = (⟨false, [], ["b".toList, "td".toList, "tr".toList, "table".toList, "body".toList, "html".toList], false⟩ : ScanSt) := by
    with_unfolding_all rfl
  have h59 : scanLine (⟨false, [], ["b".toList, "td".toList, "tr".toList, "table".toList, "body".toList, "html".toList], false⟩ : ScanSt) "    " = (⟨false, [], ["b".toList, "td".toList, "tr".toList, "table".toList, "body".toList, "html".toList], false⟩ : ScanSt) := by
    with_unfolding_all rfl
  have hb : (joinNl (reportLines demoDataEvil)).toList.foldl
      scanStep ⟨false, [], [], true⟩ = (⟨false, [], ["b".toList, "td".toList, "tr".toList, "table".toList, "body".toList, "html".toList], false⟩ : ScanSt) := by
    rw [scanLines_eq, e0]
    rw [scanLines_cons₂, h1]
    rw [scanLines_cons₂, h2]
    rw [scanLines_cons₂, h3]
    rw [scanLines_cons₂, h4]
    rw [scanLines_cons₂, h5]
    rw [scanLines_cons₂, h6]
    rw [scanLines_cons₂, h7]
    rw [scanLines_cons₂, h8]
    rw [scanLines_cons₂, h9]
    rw [scanLines_cons₂, h10]
    rw [scanLines_cons₂, h11]
    rw [scanLines_cons₂, h12]
    rw [scanLines_cons₂, h13]
    rw [scanLines_cons₂, h14]
    rw [scanLines_cons₂, h15]
    rw [scanLines_cons₂, h16]
    rw [scanLines_cons₂, h17]
    rw [scanLines_cons₂, h18]
    rw [scanLines_cons₂, h19]
    rw [scanLines_cons₂, h20]
    rw [scanLines_cons₂, h21]
    rw [scanLines_cons₂, h22]
    rw [scanLines_cons₂, h23]
    rw [scanLines_cons₂, h24]
    rw [scanLines_cons₂, h25]
    rw [scanLines_cons₂, h26]
    rw [scanLines_cons₂, h27]
    rw [scanLines_cons₂, h28]
    rw [scanLines_cons₂, h29]
    rw [scanLines_cons₂, h19]
    rw [scanLines_cons₂, h20]
    rw [scanLines_cons₂, h30]
    rw [scanLines_cons₂, h31]
    rw [scanLines_cons₂, h32]
    rw [scanLines_cons₂, h27]
    rw [scanLines_cons₂, h28]
    rw [scanLines_cons₂, h33]
    rw [scanLines_cons₂, h19]
    rw [scanLines_cons₂, h34]
    rw [scanLines_cons₂, h35]
    rw [scanLines_cons₂, h36]
    rw [scanLines_cons₂, h37]
    rw [scanLines_cons₂, h27]
    rw [scanLines_cons₂, h38]
    rw [scanLines_cons₂, h19]
    rw [scanLines_cons₂, h39]
    rw [scanLines_cons₂, h40]
    rw [scanLines_cons₂, h41]
    rw [scanLines_cons₂, h42]
    rw [scanLines_cons₂, h43]
    rw [scanLines_cons₂, h44]
    rw [scanLines_cons₂, h45]
    rw [scanLines_cons₂, h46]
    rw [scanLines_cons₂, h47]
    rw [scanLines_cons₂, h48]
    rw [scanLines_cons₂, h49]
    rw [scanLines_cons₂, h45]
    rw [scanLines_cons₂, h50]
    rw [scanLines_cons₂, h51]
    rw [scanLines_cons₂, h48]
    rw [scanLines_cons₂, h42]
    rw [scanLines_cons₂, h52]
    rw [scanLines_cons₂, h45]
    rw [scanLines_cons₂, h53]
    rw [scanLines_cons₂, h54]
    rw [scanLines_cons₂, h55]
    rw [scanLines_cons₂, h56]
    rw [scanLines_cons₂, h48]
    rw [scanLines_cons₂, h57]
    rw [scanLines_cons₂, h58]
    rw [scanLines_singleton, h59]
  show htmlBalanced (joinNl (reportLines demoDataEvil)) = false
  simp only [htmlBalanced]
  rw [hb]
  rfl


end PCInfo
